import Mathlib

/-!
# Post controller of the blogging backend: slug resolution and the listing query

A shallow embedding of `backend/controllers/post.controller.js`.

* JavaScript strings are Lean `String`s (sequences of Unicode code points);
  the string primitives used by the controller (`replace(/ /g, "-")`,
  `toLowerCase`, template literals, `parseInt`) are written on the underlying
  character lists so that they evaluate by reduction. `toLowerCase` is the
  Unicode default lowercase conversion, with the case tables of Unicode 14.
* The Mongo collection behind the `Post` model is a `List Post` in insertion
  order; `Post.findOne({ slug })` returns the first document whose slug is
  equal to the one asked for.
* A `while` loop is a recursive function with a fuel argument; one unit of
  fuel is spent per `Post.findOne` call of the loop, and the number of calls
  made is returned next to the loop's result.
* The numbers of the pagination are JavaScript numbers with an integer,
  infinite or `NaN` value; sums and products are rounded to the nearest
  double. Document ids and timestamps are `Nat`/`Int`.
-/

set_option autoImplicit false
set_option maxRecDepth 20000

namespace Portfolio

/-! ## Strings -/

/-- Code points with a one-character lowercase mapping (Unicode 14), as runs
`(first, last, step, image of first)`: the code point `first + k * step`, up
to `last`, maps to `image + k * step`. -/
def lowerRanges : List (Nat × Nat × Nat × Nat) := [
  (65, 90, 1, 97), (192, 214, 1, 224), (216, 222, 1, 248), (256, 302, 2, 257), (306, 310, 2, 307), (313, 327, 2, 314),
  (330, 374, 2, 331), (376, 376, 1, 255), (377, 381, 2, 378), (385, 385, 1, 595), (386, 388, 2, 387), (390, 390, 1, 596),
  (391, 391, 1, 392), (393, 394, 1, 598), (395, 395, 1, 396), (398, 398, 1, 477), (399, 399, 1, 601), (400, 400, 1, 603),
  (401, 401, 1, 402), (403, 403, 1, 608), (404, 404, 1, 611), (406, 406, 1, 617), (407, 407, 1, 616), (408, 408, 1, 409),
  (412, 412, 1, 623), (413, 413, 1, 626), (415, 415, 1, 629), (416, 420, 2, 417), (422, 422, 1, 640), (423, 423, 1, 424),
  (425, 425, 1, 643), (428, 428, 1, 429), (430, 430, 1, 648), (431, 431, 1, 432), (433, 434, 1, 650), (435, 437, 2, 436),
  (439, 439, 1, 658), (440, 440, 1, 441), (444, 444, 1, 445), (452, 452, 1, 454), (453, 453, 1, 454), (455, 455, 1, 457),
  (456, 456, 1, 457), (458, 458, 1, 460), (459, 475, 2, 460), (478, 494, 2, 479), (497, 497, 1, 499), (498, 500, 2, 499),
  (502, 502, 1, 405), (503, 503, 1, 447), (504, 542, 2, 505), (544, 544, 1, 414), (546, 562, 2, 547), (570, 570, 1, 11365),
  (571, 571, 1, 572), (573, 573, 1, 410), (574, 574, 1, 11366), (577, 577, 1, 578), (579, 579, 1, 384), (580, 580, 1, 649),
  (581, 581, 1, 652), (582, 590, 2, 583), (880, 882, 2, 881), (886, 886, 1, 887), (895, 895, 1, 1011), (902, 902, 1, 940),
  (904, 906, 1, 941), (908, 908, 1, 972), (910, 911, 1, 973), (913, 929, 1, 945), (931, 939, 1, 963), (975, 975, 1, 983),
  (984, 1006, 2, 985), (1012, 1012, 1, 952), (1015, 1015, 1, 1016), (1017, 1017, 1, 1010), (1018, 1018, 1, 1019), (1021, 1023, 1, 891),
  (1024, 1039, 1, 1104), (1040, 1071, 1, 1072), (1120, 1152, 2, 1121), (1162, 1214, 2, 1163), (1216, 1216, 1, 1231), (1217, 1229, 2, 1218),
  (1232, 1326, 2, 1233), (1329, 1366, 1, 1377), (4256, 4293, 1, 11520), (4295, 4295, 1, 11559), (4301, 4301, 1, 11565), (5024, 5103, 1, 43888),
  (5104, 5109, 1, 5112), (7312, 7354, 1, 4304), (7357, 7359, 1, 4349), (7680, 7828, 2, 7681), (7838, 7838, 1, 223), (7840, 7934, 2, 7841),
  (7944, 7951, 1, 7936), (7960, 7965, 1, 7952), (7976, 7983, 1, 7968), (7992, 7999, 1, 7984), (8008, 8013, 1, 8000), (8025, 8031, 2, 8017),
  (8040, 8047, 1, 8032), (8072, 8079, 1, 8064), (8088, 8095, 1, 8080), (8104, 8111, 1, 8096), (8120, 8121, 1, 8112), (8122, 8123, 1, 8048),
  (8124, 8124, 1, 8115), (8136, 8139, 1, 8050), (8140, 8140, 1, 8131), (8152, 8153, 1, 8144), (8154, 8155, 1, 8054), (8168, 8169, 1, 8160),
  (8170, 8171, 1, 8058), (8172, 8172, 1, 8165), (8184, 8185, 1, 8056), (8186, 8187, 1, 8060), (8188, 8188, 1, 8179), (8486, 8486, 1, 969),
  (8490, 8490, 1, 107), (8491, 8491, 1, 229), (8498, 8498, 1, 8526), (8544, 8559, 1, 8560), (8579, 8579, 1, 8580), (9398, 9423, 1, 9424),
  (11264, 11311, 1, 11312), (11360, 11360, 1, 11361), (11362, 11362, 1, 619), (11363, 11363, 1, 7549), (11364, 11364, 1, 637), (11367, 11371, 2, 11368),
  (11373, 11373, 1, 593), (11374, 11374, 1, 625), (11375, 11375, 1, 592), (11376, 11376, 1, 594), (11378, 11378, 1, 11379), (11381, 11381, 1, 11382),
  (11390, 11391, 1, 575), (11392, 11490, 2, 11393), (11499, 11501, 2, 11500), (11506, 11506, 1, 11507), (42560, 42604, 2, 42561), (42624, 42650, 2, 42625),
  (42786, 42798, 2, 42787), (42802, 42862, 2, 42803), (42873, 42875, 2, 42874), (42877, 42877, 1, 7545), (42878, 42886, 2, 42879), (42891, 42891, 1, 42892),
  (42893, 42893, 1, 613), (42896, 42898, 2, 42897), (42902, 42920, 2, 42903), (42922, 42922, 1, 614), (42923, 42923, 1, 604), (42924, 42924, 1, 609),
  (42925, 42925, 1, 620), (42926, 42926, 1, 618), (42928, 42928, 1, 670), (42929, 42929, 1, 647), (42930, 42930, 1, 669), (42931, 42931, 1, 43859),
  (42932, 42946, 2, 42933), (42948, 42948, 1, 42900), (42949, 42949, 1, 642), (42950, 42950, 1, 7566), (42951, 42953, 2, 42952), (42960, 42960, 1, 42961),
  (42966, 42968, 2, 42967), (42997, 42997, 1, 42998), (65313, 65338, 1, 65345), (66560, 66599, 1, 66600), (66736, 66771, 1, 66776), (66928, 66938, 1, 66967),
  (66940, 66954, 1, 66979), (66956, 66962, 1, 66995), (66964, 66965, 1, 67003), (68736, 68786, 1, 68800), (71840, 71871, 1, 71872), (93760, 93791, 1, 93792),
  (125184, 125217, 1, 125218)]

/-- Code points with the Unicode property Case_Ignorable, as closed ranges. -/
def caseIgnorableRanges : List (Nat × Nat) := [
  (39, 39), (46, 46), (58, 58), (94, 94), (96, 96), (168, 168), (173, 173), (175, 175),
  (180, 180), (183, 184), (688, 879), (884, 885), (890, 890), (900, 901), (903, 903), (1155, 1161),
  (1369, 1369), (1375, 1375), (1425, 1469), (1471, 1471), (1473, 1474), (1476, 1477), (1479, 1479), (1524, 1524),
  (1536, 1541), (1552, 1562), (1564, 1564), (1600, 1600), (1611, 1631), (1648, 1648), (1750, 1757), (1759, 1768),
  (1770, 1773), (1807, 1807), (1809, 1809), (1840, 1866), (1958, 1968), (2027, 2037), (2042, 2042), (2045, 2045),
  (2070, 2093), (2137, 2139), (2184, 2184), (2192, 2193), (2200, 2207), (2249, 2306), (2362, 2362), (2364, 2364),
  (2369, 2376), (2381, 2381), (2385, 2391), (2402, 2403), (2417, 2417), (2433, 2433), (2492, 2492), (2497, 2500),
  (2509, 2509), (2530, 2531), (2558, 2558), (2561, 2562), (2620, 2620), (2625, 2626), (2631, 2632), (2635, 2637),
  (2641, 2641), (2672, 2673), (2677, 2677), (2689, 2690), (2748, 2748), (2753, 2757), (2759, 2760), (2765, 2765),
  (2786, 2787), (2810, 2815), (2817, 2817), (2876, 2876), (2879, 2879), (2881, 2884), (2893, 2893), (2901, 2902),
  (2914, 2915), (2946, 2946), (3008, 3008), (3021, 3021), (3072, 3072), (3076, 3076), (3132, 3132), (3134, 3136),
  (3142, 3144), (3146, 3149), (3157, 3158), (3170, 3171), (3201, 3201), (3260, 3260), (3263, 3263), (3270, 3270),
  (3276, 3277), (3298, 3299), (3328, 3329), (3387, 3388), (3393, 3396), (3405, 3405), (3426, 3427), (3457, 3457),
  (3530, 3530), (3538, 3540), (3542, 3542), (3633, 3633), (3636, 3642), (3654, 3662), (3761, 3761), (3764, 3772),
  (3782, 3782), (3784, 3789), (3864, 3865), (3893, 3893), (3895, 3895), (3897, 3897), (3953, 3966), (3968, 3972),
  (3974, 3975), (3981, 3991), (3993, 4028), (4038, 4038), (4141, 4144), (4146, 4151), (4153, 4154), (4157, 4158),
  (4184, 4185), (4190, 4192), (4209, 4212), (4226, 4226), (4229, 4230), (4237, 4237), (4253, 4253), (4348, 4348),
  (4957, 4959), (5906, 5908), (5938, 5939), (5970, 5971), (6002, 6003), (6068, 6069), (6071, 6077), (6086, 6086),
  (6089, 6099), (6103, 6103), (6109, 6109), (6155, 6159), (6211, 6211), (6277, 6278), (6313, 6313), (6432, 6434),
  (6439, 6440), (6450, 6450), (6457, 6459), (6679, 6680), (6683, 6683), (6742, 6742), (6744, 6750), (6752, 6752),
  (6754, 6754), (6757, 6764), (6771, 6780), (6783, 6783), (6823, 6823), (6832, 6862), (6912, 6915), (6964, 6964),
  (6966, 6970), (6972, 6972), (6978, 6978), (7019, 7027), (7040, 7041), (7074, 7077), (7080, 7081), (7083, 7085),
  (7142, 7142), (7144, 7145), (7149, 7149), (7151, 7153), (7212, 7219), (7222, 7223), (7288, 7293), (7376, 7378),
  (7380, 7392), (7394, 7400), (7405, 7405), (7412, 7412), (7416, 7417), (7468, 7530), (7544, 7544), (7579, 7679),
  (8125, 8125), (8127, 8129), (8141, 8143), (8157, 8159), (8173, 8175), (8189, 8190), (8203, 8207), (8216, 8217),
  (8228, 8228), (8231, 8231), (8234, 8238), (8288, 8292), (8294, 8303), (8305, 8305), (8319, 8319), (8336, 8348),
  (8400, 8432), (11388, 11389), (11503, 11505), (11631, 11631), (11647, 11647), (11744, 11775), (11823, 11823), (12293, 12293),
  (12330, 12333), (12337, 12341), (12347, 12347), (12441, 12446), (12540, 12542), (40981, 40981), (42232, 42237), (42508, 42508),
  (42607, 42610), (42612, 42621), (42623, 42623), (42652, 42655), (42736, 42737), (42752, 42785), (42864, 42864), (42888, 42890),
  (42994, 42996), (43000, 43001), (43010, 43010), (43014, 43014), (43019, 43019), (43045, 43046), (43052, 43052), (43204, 43205),
  (43232, 43249), (43263, 43263), (43302, 43309), (43335, 43345), (43392, 43394), (43443, 43443), (43446, 43449), (43452, 43453),
  (43471, 43471), (43493, 43494), (43561, 43566), (43569, 43570), (43573, 43574), (43587, 43587), (43596, 43596), (43632, 43632),
  (43644, 43644), (43696, 43696), (43698, 43700), (43703, 43704), (43710, 43711), (43713, 43713), (43741, 43741), (43756, 43757),
  (43763, 43764), (43766, 43766), (43867, 43871), (43881, 43883), (44005, 44005), (44008, 44008), (44013, 44013), (64286, 64286),
  (64434, 64450), (65024, 65039), (65043, 65043), (65056, 65071), (65106, 65106), (65109, 65109), (65279, 65279), (65287, 65287),
  (65294, 65294), (65306, 65306), (65342, 65342), (65344, 65344), (65392, 65392), (65438, 65439), (65507, 65507), (65529, 65531),
  (66045, 66045), (66272, 66272), (66422, 66426), (67456, 67461), (67463, 67504), (67506, 67514), (68097, 68099), (68101, 68102),
  (68108, 68111), (68152, 68154), (68159, 68159), (68325, 68326), (68900, 68903), (69291, 69292), (69446, 69456), (69506, 69509),
  (69633, 69633), (69688, 69702), (69744, 69744), (69747, 69748), (69759, 69761), (69811, 69814), (69817, 69818), (69821, 69821),
  (69826, 69826), (69837, 69837), (69888, 69890), (69927, 69931), (69933, 69940), (70003, 70003), (70016, 70017), (70070, 70078),
  (70089, 70092), (70095, 70095), (70191, 70193), (70196, 70196), (70198, 70199), (70206, 70206), (70367, 70367), (70371, 70378),
  (70400, 70401), (70459, 70460), (70464, 70464), (70502, 70508), (70512, 70516), (70712, 70719), (70722, 70724), (70726, 70726),
  (70750, 70750), (70835, 70840), (70842, 70842), (70847, 70848), (70850, 70851), (71090, 71093), (71100, 71101), (71103, 71104),
  (71132, 71133), (71219, 71226), (71229, 71229), (71231, 71232), (71339, 71339), (71341, 71341), (71344, 71349), (71351, 71351),
  (71453, 71455), (71458, 71461), (71463, 71467), (71727, 71735), (71737, 71738), (71995, 71996), (71998, 71998), (72003, 72003),
  (72148, 72151), (72154, 72155), (72160, 72160), (72193, 72202), (72243, 72248), (72251, 72254), (72263, 72263), (72273, 72278),
  (72281, 72283), (72330, 72342), (72344, 72345), (72752, 72758), (72760, 72765), (72767, 72767), (72850, 72871), (72874, 72880),
  (72882, 72883), (72885, 72886), (73009, 73014), (73018, 73018), (73020, 73021), (73023, 73029), (73031, 73031), (73104, 73105),
  (73109, 73109), (73111, 73111), (73459, 73460), (78896, 78904), (92912, 92916), (92976, 92982), (92992, 92995), (94031, 94031),
  (94095, 94111), (94176, 94177), (94179, 94180), (110576, 110579), (110581, 110587), (110589, 110590), (113821, 113822), (113824, 113827),
  (118528, 118573), (118576, 118598), (119143, 119145), (119155, 119170), (119173, 119179), (119210, 119213), (119362, 119364), (121344, 121398),
  (121403, 121452), (121461, 121461), (121476, 121476), (121499, 121503), (121505, 121519), (122880, 122886), (122888, 122904), (122907, 122913),
  (122915, 122916), (122918, 122922), (123184, 123197), (123566, 123566), (123628, 123631), (125136, 125142), (125252, 125259), (127995, 127999),
  (917505, 917505), (917536, 917631), (917760, 917999)]

/-- Code points with the Unicode property Cased, as closed ranges. -/
def casedRanges : List (Nat × Nat) := [
  (65, 90), (97, 122), (170, 170), (181, 181), (186, 186), (192, 214), (216, 246), (248, 442),
  (444, 447), (452, 659), (661, 696), (704, 705), (736, 740), (837, 837), (880, 883), (886, 887),
  (890, 893), (895, 895), (902, 902), (904, 906), (908, 908), (910, 929), (931, 1013), (1015, 1153),
  (1162, 1327), (1329, 1366), (1376, 1416), (4256, 4293), (4295, 4295), (4301, 4301), (4304, 4346), (4349, 4351),
  (5024, 5109), (5112, 5117), (7296, 7304), (7312, 7354), (7357, 7359), (7424, 7615), (7680, 7957), (7960, 7965),
  (7968, 8005), (8008, 8013), (8016, 8023), (8025, 8025), (8027, 8027), (8029, 8029), (8031, 8061), (8064, 8116),
  (8118, 8124), (8126, 8126), (8130, 8132), (8134, 8140), (8144, 8147), (8150, 8155), (8160, 8172), (8178, 8180),
  (8182, 8188), (8305, 8305), (8319, 8319), (8336, 8348), (8450, 8450), (8455, 8455), (8458, 8467), (8469, 8469),
  (8473, 8477), (8484, 8484), (8486, 8486), (8488, 8488), (8490, 8493), (8495, 8500), (8505, 8505), (8508, 8511),
  (8517, 8521), (8526, 8526), (8544, 8575), (8579, 8580), (9398, 9449), (11264, 11492), (11499, 11502), (11506, 11507),
  (11520, 11557), (11559, 11559), (11565, 11565), (42560, 42605), (42624, 42653), (42786, 42887), (42891, 42894), (42896, 42954),
  (42960, 42961), (42963, 42963), (42965, 42969), (42997, 42998), (43000, 43002), (43824, 43866), (43868, 43880), (43888, 43967),
  (64256, 64262), (64275, 64279), (65313, 65338), (65345, 65370), (66560, 66639), (66736, 66771), (66776, 66811), (66928, 66938),
  (66940, 66954), (66956, 66962), (66964, 66965), (66967, 66977), (66979, 66993), (66995, 67001), (67003, 67004), (67456, 67456),
  (67459, 67461), (67463, 67504), (67506, 67514), (68736, 68786), (68800, 68850), (71840, 71903), (93760, 93823), (119808, 119892),
  (119894, 119964), (119966, 119967), (119970, 119970), (119973, 119974), (119977, 119980), (119982, 119993), (119995, 119995), (119997, 120003),
  (120005, 120069), (120071, 120074), (120077, 120084), (120086, 120092), (120094, 120121), (120123, 120126), (120128, 120132), (120134, 120134),
  (120138, 120144), (120146, 120485), (120488, 120512), (120514, 120538), (120540, 120570), (120572, 120596), (120598, 120628), (120630, 120654),
  (120656, 120686), (120688, 120712), (120714, 120744), (120746, 120770), (120772, 120779), (122624, 122633), (122635, 122654), (125184, 125251),
  (127280, 127305), (127312, 127337), (127344, 127369)]

/-- Lowercase mapping of one code point. -/
def lowerCode (n : Nat) : Nat :=
  match lowerRanges.find? (fun r =>
      decide (r.1 ≤ n) && decide (n ≤ r.2.1) && (n - r.1) % r.2.2.1 == 0) with
  | some r => r.2.2.2 + (n - r.1)
  | none => n

/-- Membership in a list of closed ranges. -/
def inRanges (ranges : List (Nat × Nat)) (n : Nat) : Bool :=
  ranges.any (fun r => decide (r.1 ≤ n) && decide (n ≤ r.2))

/-- The Unicode property Case_Ignorable. -/
def isCaseIgnorable (c : Char) : Bool := inRanges caseIgnorableRanges c.toNat

/-- The Unicode property Cased. -/
def isCased (c : Char) : Bool := inRanges casedRanges c.toNat

/-- The condition Final_Sigma of the Unicode special casing, for a capital
sigma with the characters `before` it (nearest first) and `after` it: going
back over case-ignorable characters there is a cased letter, and going forward
over case-ignorable characters there is none. -/
def isFinalSigma (before after : List Char) : Bool :=
  (match before.dropWhile isCaseIgnorable with
    | [] => false
    | c :: _ => isCased c)
  && (match after.dropWhile isCaseIgnorable with
    | [] => true
    | c :: _ => !isCased c)

/-- Lowercase of the character `c` standing between `before` (nearest first)
and `after`: capital sigma (U+03A3) becomes final sigma (U+03C2) or small sigma
(U+03C3), capital I with dot above (U+0130) becomes `i` and a combining dot
(U+0069 U+0307), every other character follows `lowerCode`. -/
def lowerAt (before : List Char) (c : Char) (after : List Char) : List Char :=
  if c = Char.ofNat 931 then
    [if isFinalSigma before after then Char.ofNat 962 else Char.ofNat 963]
  else if c = Char.ofNat 304 then [Char.ofNat 105, Char.ofNat 775]
  else [Char.ofNat (lowerCode c.toNat)]

/-- Lowercase of the characters `after`, which follow `before` (nearest
first). -/
def lowerAux : List Char → List Char → List Char
  | _, [] => []
  | before, c :: after => lowerAt before c after ++ lowerAux (c :: before) after

/-- `String.prototype.toLowerCase`: the Unicode default lowercase conversion
(the mappings of the Unicode character database with the context rule for
sigma, independent of locale), on strings of Unicode code points. -/
def toLowerCase (s : String) : String := ⟨lowerAux [] s.data⟩

/-- The replacement of `replace(/ /g, "-")` on one character. -/
def hyphenate (c : Char) : Char := if c = ' ' then '-' else c


/-- `s.replace(/ /g, "-")`: every space character becomes a hyphen. -/
def replaceSpaces (s : String) : String :=
  ⟨s.data.map (fun c => if c = ' ' then '-' else c)⟩

/-- The expression `title.replace(/ /g, "-").toLowerCase()` of `createPost`
(line 100) and `updatePost` (line 213). -/
def slugify (title : String) : String := toLowerCase (replaceSpaces title)

/-- The base slug in the words of the specification: the title lowercased,
then each space replaced by a hyphen. -/
def specBaseSlug (title : String) : String := replaceSpaces (toLowerCase title)

/-- The template literal of lines 107 and 218: slug, a hyphen, the counter in
decimal. -/
def withSuffix (slug : String) (counter : Nat) : String :=
  slug ++ "-" ++ toString counter

/-- JavaScript truthiness of a value that is either `undefined` or a string. -/
def truthy : Option String → Bool
  | none => false
  | some s => s != ""

/-! ## Documents -/

/-- Modelled from the spec: the `Post` schema (`models/post.model.js` is not
among the sources). The fields are the ones the controller and the client
read or write; `_id` is the document id given by the store. -/
structure Post where
  _id : Nat
  user : Nat
  slug : String
  title : String
  category : Option String
  desc : Option String
  content : Option String
  img : Option String
  isFeatured : Bool
  visit : Nat
  createdAt : Int
  deriving DecidableEq, Repr

/-- Modelled from the spec: the `User` schema (`models/user.model.js` is not
among the sources), with the three fields the controller uses. -/
structure User where
  _id : Nat
  clerkUserId : String
  username : String
  deriving DecidableEq, Repr

/-- `Post.findOne({ slug })`: the first stored post with that slug. -/
def findOne (store : List Post) (slug : String) : Option Post :=
  store.find? (fun p => p.slug == slug)

/-- `User.findOne({ clerkUserId })`. -/
def findUserByClerkId (users : List User) (clerkUserId : String) : Option User :=
  users.find? (fun u => u.clerkUserId == clerkUserId)

/-- `User.findOne({ username })`. -/
def findUserByUsername (users : List User) (username : String) : Option User :=
  users.find? (fun u => u.username == username)

/-! ## Slug resolution of `createPost` (lines 100-110) -/

/-- Result of a collision loop: the slug it settled on and the number of
`Post.findOne` calls it made. -/
structure Resolved where
  slug : String
  checks : Nat
  deriving DecidableEq, Repr

/-- The collision loop of `createPost`, entered at the `findOne` of the
current `slug`:

    let existingPost = await Post.findOne({ slug });
    let counter = 2;
    while (existingPost) {
      slug = `${slug}-${counter}`;
      existingPost = await Post.findOne({ slug });
      counter++;
    }

`done` is the number of `findOne` calls already made. -/
def createLoop (store : List Post) : Nat → String → Nat → Nat → Option Resolved
  | 0, _, _, _ => none
  | fuel + 1, slug, counter, done =>
    match findOne store slug with
    | none => some ⟨slug, done + 1⟩
    | some _ => createLoop store fuel (withSuffix slug counter) (counter + 1) (done + 1)

/-- Lines 100-110 of `createPost`: the slug resolved for a new post. -/
def createSlug (store : List Post) (fuel : Nat) (title : String) : Option Resolved :=
  createLoop store fuel (slugify title) 2 0

/-! ## Requests and replies -/

/-- The part of `req.auth` the controller reads: `userId` and
`sessionClaims?.metadata?.role`. -/
structure Auth where
  userId : Option String
  role : Option String
  deriving DecidableEq, Repr

/-- The JSON body of a `createPost` request: the keys of the `Post` schema it
may carry (`new Post({ user: user._id, slug, ...req.body })` takes every one of
them); `none` is an absent key. -/
structure CreateBody where
  title : Option String
  slug : Option String
  user : Option Nat
  category : Option String
  desc : Option String
  content : Option String
  img : Option String
  isFeatured : Option Bool
  visit : Option Nat
  deriving DecidableEq, Repr

/-- The keys `updatePost` destructures from `req.body` (line 208). -/
structure UpdateBody where
  title : Option String
  category : Option String
  desc : Option String
  content : Option String
  img : Option String
  deriving DecidableEq, Repr

/-- What a handler did: the status it replied with, the post in the reply (if
any) and the store afterwards; or an exception it did not catch. -/
inductive Outcome where
  | replied (status : Nat) (post : Option Post) (store : List Post)
  | threw
  deriving DecidableEq, Repr

/-- The object literal `{ user: user._id, slug, ...req.body }` of line 112 made
into a document: keys of the body come last in the literal, so they replace
`user` and `slug` when present. `newId` and `now` are the `_id` and `createdAt`
the store gives the document. -/
def newPostDoc (newId : Nat) (now : Int) (userId : Nat) (slug : String)
    (title : String) (body : CreateBody) : Post :=
  { _id := newId
    user := body.user.getD userId
    slug := body.slug.getD slug
    title := title
    category := body.category
    desc := body.desc
    content := body.content
    img := body.img
    isFeatured := body.isFeatured.getD false
    visit := body.visit.getD 0
    createdAt := now }

/-- Modelled from the spec: `newPost.save()` (the `Post` model is not among the
sources); the store is the plain collection of section 5 of the specification,
in which the existence check of the controller is the only guard of slug
uniqueness, so saving appends the document. -/
def save (store : List Post) (p : Post) : List Post := store ++ [p]

/-- The handler `createPost` (lines 85-116). `none`: the fuel given to the
collision loop ran out. -/
def createPost (users : List User) (store : List Post) (fuel : Nat)
    (newId : Nat) (now : Int) (auth : Auth) (body : CreateBody) : Option Outcome :=
  match auth.userId with
  | none => some (.replied 401 none store)
  | some clerkUserId =>
    if clerkUserId = "" then some (.replied 401 none store)
    else
      match findUserByClerkId users clerkUserId with
      | none => some (.replied 404 none store)
      | some user =>
        match body.title with
        | none => some .threw
        | some title =>
          match createSlug store fuel title with
          | none => none
          | some r =>
            let newPost := newPostDoc newId now user._id r.slug title body
            some (.replied 200 (some newPost) (save store newPost))

/-! ## Slug resolution of `updatePost` (lines 211-225) -/

/-- The collision loop of `updatePost` for the post with id `postId`, entered
at the `findOne` of the current `newSlug`:

    let existingPost = await Post.findOne({ slug: newSlug });
    let counter = 2;
    while (existingPost && existingPost._id.toString() !== post._id.toString()) {
      newSlug = `${newSlug}-${counter}`;
      existingPost = await Post.findOne({ slug: newSlug });
      counter++;
    }
-/
def updateLoop (store : List Post) (postId : Nat) : Nat → String → Nat → Nat → Option Resolved
  | 0, _, _, _ => none
  | fuel + 1, newSlug, counter, done =>
    match findOne store newSlug with
    | none => some ⟨newSlug, done + 1⟩
    | some existingPost =>
      if existingPost._id ≠ postId then
        updateLoop store postId fuel (withSuffix newSlug counter) (counter + 1) (done + 1)
      else some ⟨newSlug, done + 1⟩

/-- Lines 213-221 of `updatePost`: the slug resolved for post `postId` and a
new title. -/
def updateSlug (store : List Post) (postId : Nat) (fuel : Nat) (title : String) :
    Option Resolved :=
  updateLoop store postId fuel (slugify title) 2 0

/-- The object `updatedFields` of `updatePost`; `none` is a key never set. -/
structure UpdatedFields where
  slug : Option String
  title : Option String
  category : Option String
  desc : Option String
  content : Option String
  img : Option String
  deriving DecidableEq, Repr

/-- Keeps a field of the body only when it is truthy (`if (category) ...`). -/
def ifTruthy (v : Option String) : Option String :=
  if truthy v then v else none

/-- Lines 208-230 of `updatePost`: the fields to set for the stored post
`post`. `none`: the fuel given to the collision loop ran out. -/
def buildUpdatedFields (store : List Post) (fuel : Nat) (post : Post)
    (body : UpdateBody) : Option UpdatedFields :=
  let rest : Option String → Option String → UpdatedFields := fun slug title =>
    { slug := slug, title := title
      category := ifTruthy body.category
      desc := ifTruthy body.desc
      content := ifTruthy body.content
      img := ifTruthy body.img }
  match body.title with
  | none => some (rest none none)
  | some title =>
    if title ≠ "" ∧ title ≠ post.title then
      match updateSlug store post._id fuel title with
      | none => none
      | some r => some (rest (some r.slug) (some title))
    else some (rest none none)

/-- The effect of `{ $set: updatedFields }` on one document. -/
def setFields (u : UpdatedFields) (p : Post) : Post :=
  { p with
    slug := u.slug.getD p.slug
    title := u.title.getD p.title
    category := if u.category.isSome then u.category else p.category
    desc := if u.desc.isSome then u.desc else p.desc
    content := if u.content.isSome then u.content else p.content
    img := if u.img.isSome then u.img else p.img }

/-- `Post.findOneAndUpdate({ slug }, { $set: updatedFields })`: the store with
the first post of that slug updated. -/
def findOneAndUpdate : List Post → String → UpdatedFields → List Post
  | [], _, _ => []
  | p :: ps, slug, u =>
    if p.slug == slug then setFields u p :: ps
    else p :: findOneAndUpdate ps slug u

/-- The handler `updatePost` (lines 179-243) for `req.params.slug = slug`.
`none`: the fuel given to the collision loop ran out. -/
def updatePost (users : List User) (store : List Post) (fuel : Nat)
    (auth : Auth) (slug : String) (body : UpdateBody) : Option Outcome :=
  match auth.userId with
  | none => some (.replied 401 none store)
  | some clerkUserId =>
    if clerkUserId = "" then some (.replied 401 none store)
    else
      let role := if truthy auth.role then auth.role.getD "user" else "user"
      match findOne store slug with
      | none => some (.replied 404 none store)
      | some post =>
        match findUserByClerkId users clerkUserId with
        | none => some (.replied 404 none store)
        | some user =>
          if role ≠ "admin" ∧ post.user ≠ user._id then
            some (.replied 403 none store)
          else
            match buildUpdatedFields store fuel post body with
            | none => none
            | some updatedFields =>
              some (.replied 200 (some (setFields updatedFields post))
                (findOneAndUpdate store slug updatedFields))

/-! ## `parseInt` -/

/-- White space that `parseInt` skips at the start of its input (the
WhiteSpace and LineTerminator code points of ECMAScript). -/
def isWhiteSpace (c : Char) : Bool :=
  decide (c.toNat ∈ [9, 10, 11, 12, 13, 32, 160, 5760, 8232, 8233, 8239, 8287, 12288, 65279])
    || (decide (8192 ≤ c.toNat) && decide (c.toNat ≤ 8202))

/-- Value of a character as a digit (`0`-`9`, `a`-`f`, `A`-`F`). -/
def digitValue (c : Char) : Option Nat :=
  let n := c.toNat
  if 48 ≤ n ∧ n ≤ 57 then some (n - 48)
  else if 97 ≤ n ∧ n ≤ 102 then some (n - 87)
  else if 65 ≤ n ∧ n ≤ 70 then some (n - 55)
  else none

/-- Whether `c` is a digit of the given radix. -/
def isDigitOf (radix : Nat) (c : Char) : Bool :=
  match digitValue c with
  | some d => decide (d < radix)
  | none => false

/-- Value of a run of digits in the given radix. -/
def digitsValue (radix : Nat) (cs : List Char) : Nat :=
  cs.foldl (fun acc c => acc * radix + (digitValue c).getD 0) 0

/-- The optional sign at the start of the input of `parseInt`. -/
def stripSign : List Char → Int × List Char
  | '-' :: rest => (-1, rest)
  | '+' :: rest => (1, rest)
  | cs => (1, cs)

/-- The radix `parseInt` uses when none is passed: 16 after `0x` or `0X`,
otherwise 10. -/
def stripRadix : List Char → Nat × List Char
  | '0' :: 'x' :: rest => (16, rest)
  | '0' :: 'X' :: rest => (16, rest)
  | cs => (10, cs)

/-- A JavaScript number that is not `NaN`: an integer that a double holds, or
an infinity. The two zeros `+0` and `-0` are one value (they are equal for
`==` and `<` and both falsy). -/
inductive Ext where
  | fin (value : Int)
  | inf (negative : Bool)
  deriving DecidableEq, Repr

/-- A JavaScript number with an integer, infinite or `NaN` value, which is all
that `parseInt` and the products and differences of its results can be;
`none` is `NaN`. -/
abbrev JSNumber := Option Ext

/-- Number of binary digits of `n`, for `fuel` at least that number. -/
def bitLength : Nat → Nat → Nat
  | 0, _ => 0
  | fuel + 1, n => if n = 0 then 0 else bitLength fuel (n / 2) + 1

/-- The double nearest to the natural number `n`: `n` itself up to 2^53, else
`n` rounded to 53 significant binary digits, ties to the even one, and
`Infinity` from 2^1024 on. -/
def roundNat (n : Nat) : Ext :=
  if n ≤ 9007199254740992 then .fin n
  else
    let e := bitLength n n - 53
    let q := n / 2 ^ e
    let r := n % 2 ^ e
    let half := 2 ^ (e - 1)
    let q' := if half < r ∨ (r = half ∧ q % 2 = 1) then q + 1 else q
    if 1024 < bitLength (q' * 2 ^ e) (q' * 2 ^ e) then .inf false else .fin (q' * 2 ^ e)

/-- Negation of a number that is not `NaN`. -/
def Ext.neg : Ext → Ext
  | .fin v => .fin (-v)
  | .inf s => .inf (!s)

/-- The double nearest to the integer `i`. -/
def roundInt : Int → Ext
  | .ofNat n => roundNat n
  | .negSucc n => (roundNat (n + 1)).neg

/-- The operator `-` on numbers: the exact difference rounded to a double. -/
def JSNumber.sub : JSNumber → JSNumber → JSNumber
  | some (.fin x), some (.fin y) => some (roundInt (x - y))
  | some (.inf s), some (.fin _) => some (.inf s)
  | some (.fin _), some (.inf s) => some (.inf (!s))
  | some (.inf s), some (.inf t) => if s = t then none else some (.inf s)
  | _, _ => none

/-- The operator `*` on numbers: the exact product rounded to a double;
zero times an infinity is `NaN`. -/
def JSNumber.mul : JSNumber → JSNumber → JSNumber
  | some (.fin x), some (.fin y) => some (roundInt (x * y))
  | some (.inf s), some (.fin y) => if y = 0 then none else some (.inf (s != decide (y < 0)))
  | some (.fin x), some (.inf s) => if x = 0 then none else some (.inf (s != decide (x < 0)))
  | some (.inf s), some (.inf t) => some (.inf (s != t))
  | _, _ => none

/-- The operator `<` on numbers; false when either side is `NaN`. -/
def JSNumber.lt : JSNumber → JSNumber → Bool
  | some (.fin x), some (.fin y) => decide (x < y)
  | some (.fin _), some (.inf s) => !s
  | some (.inf s), some (.fin _) => s
  | some (.inf s), some (.inf t) => s && !t
  | _, _ => false

instance (n : Nat) : OfNat JSNumber n := ⟨some (roundNat n)⟩

instance : Neg JSNumber := ⟨fun x => x.map Ext.neg⟩

instance : Sub JSNumber := ⟨JSNumber.sub⟩

instance : Mul JSNumber := ⟨JSNumber.mul⟩

/-- The function `parseInt(v)` for `v` a string or `undefined`; `none` is
`NaN`. It skips leading white space, reads a sign and a radix prefix, then the
longest run of digits; without a digit the result is `NaN`, else it is the
double nearest to the signed value of the digits. -/
def parseInt : Option String → JSNumber
  | none => none
  | some s =>
    let signed := stripSign (s.data.dropWhile isWhiteSpace)
    let based := stripRadix signed.2
    let digits := based.2.takeWhile (isDigitOf based.1)
    if digits = [] then none
    else some (roundInt (signed.1 * (digitsValue based.1 digits : Int)))

/-- The expression `parseInt(v) || d`: `NaN` and `0` are falsy. -/
def orDefault (v : JSNumber) (d : JSNumber) : JSNumber :=
  match v with
  | none => d
  | some (.fin n) => if n = 0 then d else v
  | some (.inf _) => v

/-- Decimal digit characters. -/
@[reducible] def isDec (c : Char) : Prop := 48 ≤ c.toNat ∧ c.toNat ≤ 57

/-! ## The listing query of `getPosts` (lines 5-75) -/

/-- The object `req.query`: the parameters of the query string as key and
value pairs, every value a string; a key is looked up at its first
occurrence. -/
abbrev ReqQuery := List (String × String)

/-- The property access `req.query.key`; `none` is `undefined`. -/
def param (reqQuery : ReqQuery) (key : String) : Option String :=
  reqQuery.lookup key

/-- The predicate `{ $regex: searchQuery, $options: "i" }` on `title`. -/
structure TitleRegex where
  regex : String
  options : String
  deriving DecidableEq, Repr

/-- The object `query` handed to `Post.find`: one optional predicate per
field, `none` for a key that was never set. `createdAt` holds the `$gte`
bound in milliseconds. -/
structure Filter where
  category : Option String
  title : Option TitleRegex
  user : Option Nat
  createdAt : Option Int
  isFeatured : Option Bool
  deriving DecidableEq, Repr

/-- The empty object `{}` of line 9. -/
def emptyFilter : Filter :=
  { category := none, title := none, user := none, createdAt := none, isFeatured := none }

/-- The object `sortObj`: the field sorted on and the direction (`1` or `-1`). -/
inductive SortObj where
  | createdAt (direction : Int)
  | visit (direction : Int)
  deriving DecidableEq, Repr

/-- The call `Post.find(query).sort(sortObj).limit(limit).skip(...)` of lines
65-69. -/
structure FindCall where
  query : Filter
  sort : SortObj
  limit : JSNumber
  skip : JSNumber
  deriving DecidableEq, Repr

/-- Reply of `getPosts`: status 404 with "No post found!", or status 200 with
the page the store returns for `find` and the `hasMore` flag. -/
inductive ListReply where
  | notFound
  | ok (find : FindCall) (hasMore : Bool)
  deriving DecidableEq, Repr

/-- Lines 39-59: the `switch` on `req.query.sort`. -/
def applySort (now : Int) (sortQuery : Option String) (query : Filter) : SortObj × Filter :=
  if sortQuery = some "newest" then (.createdAt (-1), query)
  else if sortQuery = some "oldest" then (.createdAt 1, query)
  else if sortQuery = some "popular" then (.visit (-1), query)
  else if sortQuery = some "trending" then
    (.visit (-1), { query with createdAt := some (now - 7 * 24 * 60 * 60 * 1000) })
  else (.createdAt (-1), query)

/-- Lines 27-35: the author lookup; `none` is the 404 reply. -/
def applyAuthor (users : List User) (author : Option String) (query : Filter) : Option Filter :=
  if truthy author then
    match findUserByUsername users (author.getD "") with
    | none => none
    | some user => some { query with user := some user._id }
  else some query

/-- The handler `getPosts` at time `now` (milliseconds). `Post.countDocuments()`
is the size of the whole collection. -/
def getPosts (users : List User) (store : List Post) (now : Int) (reqQuery : ReqQuery) :
    ListReply :=
  let page := orDefault (parseInt (param reqQuery "page")) 1
  let limit := orDefault (parseInt (param reqQuery "limit")) 2
  let query := emptyFilter
  let cat := param reqQuery "cat"
  let author := param reqQuery "author"
  let searchQuery := param reqQuery "search"
  let sortQuery := param reqQuery "sort"
  let featured := param reqQuery "featured"
  let query := if truthy cat then { query with category := cat } else query
  let query :=
    if truthy searchQuery then { query with title := some ⟨searchQuery.getD "", "i"⟩ }
    else query
  match applyAuthor users author query with
  | none => .notFound
  | some query =>
    let sorted := applySort now sortQuery query
    let sortObj := sorted.1
    let query := if truthy featured then { sorted.2 with isFeatured := some true } else sorted.2
    let totalPosts : JSNumber := some (roundNat store.length)
    .ok ⟨query, sortObj, limit, (page - 1) * limit⟩ (JSNumber.lt (page * limit) totalPosts)

/-- Whether a stored post satisfies every predicate of a filter, as the store
evaluates it; `regexTest` is the store's pattern matcher. -/
def matchesFilter (regexTest : TitleRegex → String → Bool) (f : Filter) (p : Post) : Bool :=
  (match f.category with | none => true | some c => p.category == some c)
  && (match f.title with | none => true | some r => regexTest r p.title)
  && (match f.user with | none => true | some u => p.user == u)
  && (match f.createdAt with | none => true | some t => decide (t ≤ p.createdAt))
  && (match f.isFeatured with | none => true | some b => p.isFeatured == b)

/-- Number of stored posts a filter selects. -/
def countMatching (regexTest : TitleRegex → String → Bool) (store : List Post) (f : Filter) :
    Nat :=
  (store.filter (matchesFilter regexTest f)).length

/-- Lines 9-25 of `getPosts`: the filter after the `cat` and `search` steps. -/
def baseFilter (reqQuery : ReqQuery) : Filter :=
  let query := emptyFilter
  let query :=
    if truthy (param reqQuery "cat") then { query with category := param reqQuery "cat" }
    else query
  if truthy (param reqQuery "search") then
    { query with title := some ⟨(param reqQuery "search").getD "", "i"⟩ }
  else query

/-- Line 6 of `getPosts`: `parseInt(req.query.page) || 1`. -/
def pageUsed (reqQuery : ReqQuery) : JSNumber :=
  orDefault (parseInt (param reqQuery "page")) 1

/-- Line 7 of `getPosts`: `parseInt(req.query.limit) || 2`. -/
def limitUsed (reqQuery : ReqQuery) : JSNumber :=
  orDefault (parseInt (param reqQuery "limit")) 2

/-! ## The slug invariant of the store -/

/-- Every stored post has a non-empty slug and no two stored posts share a
slug. -/
def SlugInvariant (store : List Post) : Prop :=
  (∀ p ∈ store, p.slug ≠ "") ∧ store.Pairwise (fun p q => p.slug ≠ q.slug)

instance (store : List Post) : Decidable (SlugInvariant store) := by
  unfold SlugInvariant; infer_instance

/-! ## Termination measure of the collision loops -/

/-- Number of stored posts whose slug is at least as long as `slug`: every
candidate after `slug` is longer, so only these can still collide. -/
def pending (store : List Post) (slug : String) : Nat :=
  (store.filter (fun p => decide (slug.length ≤ p.slug.length))).length

/-! ## Sample data -/

/-- A registered user. -/
def alice : User := { _id := 1, clerkUserId := "clerk_alice", username := "alice" }

/-- The session of `alice`. -/
def aliceAuth : Auth := { userId := some "clerk_alice", role := none }

/-- A body with a title and nothing else. -/
def titleOnly (title : String) : CreateBody :=
  { title := some title, slug := none, user := none, category := none, desc := none
    content := none, img := none, isFeatured := none, visit := none }

/-- A stored post of `alice` with the given id, slug, title and category. -/
def samplePost (id : Nat) (slug title : String) (category : Option String) : Post :=
  { _id := id, user := 1, slug := slug, title := title, category := category, desc := none
    content := none, img := none, isFeatured := false, visit := 0, createdAt := 0 }

/-- A collection of 35 posts: 25 in category `web-design`, 10 in `news`. -/
def sampleStore35 : List Post :=
  (List.range 25).map (fun i => samplePost i (withSuffix "design" i) "Design" (some "web-design"))
    ++ (List.range 10).map (fun i => samplePost (25 + i) (withSuffix "news" i) "News" (some "news"))

/-! ## Basic facts -/

theorem findOne_eq_none_iff (store : List Post) (slug : String) :
    findOne store slug = none ↔ ∀ p ∈ store, p.slug ≠ slug := by
  simp [findOne, List.find?_eq_none]

theorem findOne_some {store : List Post} {slug : String} {p : Post}
    (h : findOne store slug = some p) : p ∈ store ∧ p.slug = slug := by
  unfold findOne at h
  exact ⟨List.mem_of_find?_eq_some h, by simpa using List.find?_some h⟩

theorem withSuffix_length (slug : String) (counter : Nat) :
    slug.length < (withSuffix slug counter).length := by
  simp only [withSuffix, String.length_append]
  have : ("-" : String).length = 1 := rfl
  omega

theorem lowerRanges_image : ∀ r ∈ lowerRanges, 32 < r.2.2.2 := by decide

theorem space_hyphen_props :
    isCaseIgnorable ' ' = false ∧ isCaseIgnorable '-' = false
    ∧ isCased ' ' = false ∧ isCased '-' = false := by decide

theorem ofNat_eq_space {n : Nat} (h : Char.ofNat n = ' ') : n = 32 := by
  by_cases hv : n.isValidChar
  · have h1 : (Char.ofNat n).toNat = n := by
      simp only [Char.ofNat, hv, dif_pos]
      rfl
    rw [h] at h1
    exact h1.symm
  · have h1 : Char.ofNat n = Char.ofNat 0 := by
      simp only [Char.ofNat, hv, dif_neg, not_false_eq_true]
      rfl
    rw [h1] at h
    exact absurd h (by decide)

theorem lowerCode_eq_space {n : Nat} (h : lowerCode n = 32) : n = 32 := by
  unfold lowerCode at h
  split at h
  · rename_i r hr
    have hm := List.mem_of_find?_eq_some hr
    have := lowerRanges_image r hm
    omega
  · exact h

theorem lowerAt_no_space (before after : List Char) (c : Char) (hc : c ≠ ' ') :
    ∀ x ∈ lowerAt before c after, x ≠ ' ' := by
  intro x hx
  unfold lowerAt at hx
  split_ifs at hx <;>
    simp only [List.mem_cons, List.mem_singleton, List.not_mem_nil, or_false] at hx
  · subst hx; decide
  · subst hx; decide
  · rcases hx with rfl | rfl <;> decide
  · subst hx
    intro h
    have := lowerCode_eq_space (ofNat_eq_space h)
    apply hc
    rw [← Char.ofNat_toNat c, this]

theorem lowerAt_space (before after : List Char) :
    lowerAt before ' ' after = [' '] ∧ lowerAt before '-' after = ['-'] := by
  unfold lowerAt
  rw [if_neg (by decide), if_neg (by decide), if_neg (by decide), if_neg (by decide)]
  constructor <;> decide

theorem dropWhile_map_hyphenate (p : Char → Bool) (hp : ∀ c, p (hyphenate c) = p c) :
    ∀ l : List Char, (l.map hyphenate).dropWhile p = (l.dropWhile p).map hyphenate := by
  intro l
  induction l with
  | nil => rfl
  | cons a t ih =>
    simp only [List.map_cons, List.dropWhile_cons, hp a]
    split <;> simp [ih]

theorem isCaseIgnorable_hyphenate (c : Char) :
    isCaseIgnorable (hyphenate c) = isCaseIgnorable c := by
  unfold hyphenate
  split_ifs with h
  · subst h; decide
  · rfl

theorem isCased_hyphenate (c : Char) : isCased (hyphenate c) = isCased c := by
  unfold hyphenate
  split_ifs with h
  · subst h; decide
  · rfl

theorem isFinalSigma_map (before after : List Char) :
    isFinalSigma (before.map hyphenate) (after.map hyphenate) = isFinalSigma before after := by
  unfold isFinalSigma
  rw [dropWhile_map_hyphenate _ isCaseIgnorable_hyphenate,
    dropWhile_map_hyphenate _ isCaseIgnorable_hyphenate]
  cases before.dropWhile isCaseIgnorable <;> cases after.dropWhile isCaseIgnorable <;>
    simp [isCased_hyphenate]

theorem lowerAt_map (before after : List Char) (c : Char) :
    lowerAt (before.map hyphenate) (hyphenate c) (after.map hyphenate)
      = (lowerAt before c after).map hyphenate := by
  by_cases hc : c = ' '
  · subst hc
    have h1 : hyphenate ' ' = '-' := by decide
    rw [h1, (lowerAt_space _ _).2, (lowerAt_space _ _).1]
    rfl
  · have h1 : hyphenate c = c := by simp [hyphenate, hc]
    have hid : (lowerAt before c after).map hyphenate = lowerAt before c after := by
      have hcongr : (lowerAt before c after).map hyphenate = (lowerAt before c after).map id := by
        apply List.map_congr_left
        intro x hx
        simp [hyphenate, lowerAt_no_space before after c hc x hx]
      rw [hcongr, List.map_id]
    rw [hid, h1]
    unfold lowerAt
    rw [isFinalSigma_map]

theorem lowerAux_map :
    ∀ (after before : List Char),
      lowerAux (before.map hyphenate) (after.map hyphenate)
        = (lowerAux before after).map hyphenate := by
  intro after
  induction after with
  | nil => intro _; rfl
  | cons c rest ih =>
    intro before
    simp only [List.map_cons, lowerAux, List.map_append]
    rw [lowerAt_map, ← ih (c :: before)]
    rfl

/-- Replacing then lowercasing (the code) is lowercasing then replacing (the
words of the specification): no lowercase mapping yields a space, and a space
and a hyphen are alike for the sigma rule. -/
theorem slugify_eq_specBaseSlug (title : String) : slugify title = specBaseSlug title := by
  show String.mk (lowerAux [] (title.data.map hyphenate))
    = String.mk ((lowerAux [] title.data).map hyphenate)
  congr 1
  exact lowerAux_map title.data []

theorem lowerAt_ne_nil (before after : List Char) (c : Char) : lowerAt before c after ≠ [] := by
  unfold lowerAt
  split_ifs <;> simp

theorem lowerAux_ne_nil (before : List Char) {l : List Char} (h : l ≠ []) :
    lowerAux before l ≠ [] := by
  cases l with
  | nil => exact absurd rfl h
  | cons c rest =>
    simp only [lowerAux]
    intro he
    exact lowerAt_ne_nil before rest c (List.append_eq_nil.mp he).1

theorem slugify_ne_empty (title : String) (h : title ≠ "") : slugify title ≠ "" := by
  intro he
  have hd : title.data ≠ [] := by
    intro hn
    apply h
    cases title
    simp_all
  have : lowerAux [] (title.data.map hyphenate) ≠ [] :=
    lowerAux_ne_nil [] (by simpa using hd)
  apply this
  have := congrArg String.data he
  exact this


/-- The lowercase conversion beyond ASCII: accented letters, the two-character
image of capital I with dot above, final sigma; and a title whose lowercase
form is taken gets the suffix. -/
theorem slugify_samples :
    slugify "ÉCOLE Été İ" = "école-été-i̇"
    ∧ slugify "ΟΔΥΣΣΕΥΣ ΟΔΟΣ" = "οδυσσευς-οδος"
    ∧ slugify "Hello World" = "hello-world"
    ∧ createSlug [samplePost 10 "ä" "ä" none] 2 "Ä" = some ⟨"ä-2", 2⟩ := by
  decide

/-! ## Termination of the collision loops -/

theorem pending_le_length (store : List Post) (slug : String) :
    pending store slug ≤ store.length :=
  List.length_filter_le _ _

theorem filter_length_mono {α : Type} (p q : α → Bool) (h : ∀ x, p x = true → q x = true) :
    ∀ l : List α, (l.filter p).length ≤ (l.filter q).length := by
  intro l
  induction l with
  | nil => simp
  | cons a t ih =>
    by_cases hp : p a = true
    · simp [List.filter_cons, hp, h a hp, ih]
    · by_cases hq : q a = true
      · simp [List.filter_cons, hp, hq]; omega
      · simp [List.filter_cons, hp, hq, ih]

theorem filter_length_lt {α : Type} (p q : α → Bool) (h : ∀ x, p x = true → q x = true)
    (e : α) (hq : q e = true) (hp : ¬ p e = true) :
    ∀ l : List α, e ∈ l → (l.filter p).length < (l.filter q).length := by
  intro l
  induction l with
  | nil => intro hm; cases hm
  | cons a t ih =>
    intro hm
    have hmono := filter_length_mono p q h t
    rcases List.mem_cons.mp hm with rfl | hm'
    · simp [List.filter_cons, hp, hq]; omega
    · have := ih hm'
      by_cases hpa : p a = true
      · simp [List.filter_cons, hpa, h a hpa]; omega
      · by_cases hqa : q a = true
        · simp [List.filter_cons, hpa, hqa]; omega
        · simp [List.filter_cons, hpa, hqa]; omega

/-- A collision with a stored post takes that post out of the pending ones. -/
theorem pending_withSuffix_lt {store : List Post} {slug : String} {e : Post}
    (counter : Nat) (h : findOne store slug = some e) :
    pending store (withSuffix slug counter) < pending store slug := by
  obtain ⟨hm, hs⟩ := findOne_some h
  have hlen := withSuffix_length slug counter
  unfold pending
  apply filter_length_lt _ _ _ e _ _ store hm
  · intro x hx
    simp only [decide_eq_true_eq] at hx ⊢
    omega
  · simp [hs]
  · simp only [decide_eq_true_eq, hs]
    omega

/-- With more fuel than pending posts the loop of `createPost` ends: it ends
on a slug no stored post has, after at most one check per pending post and one
more. -/
theorem createLoop_terminates (store : List Post) :
    ∀ (fuel : Nat) (slug : String) (counter done : Nat), pending store slug < fuel →
      ∃ r, createLoop store fuel slug counter done = some r
        ∧ r.checks ≤ done + pending store slug + 1
        ∧ findOne store r.slug = none := by
  intro fuel
  induction fuel with
  | zero => intro _ _ _ h; omega
  | succ n ih =>
    intro slug counter done h
    cases hf : findOne store slug with
    | none => exact ⟨⟨slug, done + 1⟩, by simp [createLoop, hf]⟩
    | some e =>
      have hlt := pending_withSuffix_lt counter hf
      obtain ⟨r, hr, hc, hfree⟩ :=
        ih (withSuffix slug counter) (counter + 1) (done + 1) (by omega)
      exact ⟨r, by simp [createLoop, hf, hr], by omega, hfree⟩

/-- With more fuel than pending posts the loop of `updatePost` ends: it ends
on a slug that no stored post has or whose first holder is the subject post. -/
theorem updateLoop_terminates (store : List Post) (postId : Nat) :
    ∀ (fuel : Nat) (slug : String) (counter done : Nat), pending store slug < fuel →
      ∃ r, updateLoop store postId fuel slug counter done = some r
        ∧ r.checks ≤ done + pending store slug + 1
        ∧ (findOne store r.slug = none
            ∨ ∃ e, findOne store r.slug = some e ∧ e._id = postId) := by
  intro fuel
  induction fuel with
  | zero => intro _ _ _ h; omega
  | succ n ih =>
    intro slug counter done h
    cases hf : findOne store slug with
    | none => exact ⟨⟨slug, done + 1⟩, by simp [updateLoop, hf]⟩
    | some e =>
      by_cases hid : e._id = postId
      · exact ⟨⟨slug, done + 1⟩, by simp [updateLoop, hf, hid]⟩
      · have hlt := pending_withSuffix_lt counter hf
        obtain ⟨r, hr, hc, hfree⟩ :=
          ih (withSuffix slug counter) (counter + 1) (done + 1) (by omega)
        exact ⟨r, by simp [updateLoop, hf, hid, hr], by omega, hfree⟩

/-- Two stored posts with the same slug are the same post when slugs are
pairwise distinct. -/
theorem eq_of_slug_eq {store : List Post}
    (h : store.Pairwise (fun p q => p.slug ≠ q.slug)) {p q : Post}
    (hp : p ∈ store) (hq : q ∈ store) (hs : p.slug = q.slug) : p = q := by
  induction h with
  | nil => cases hp
  | cons hhead _ ih =>
    rcases List.mem_cons.mp hp with rfl | hp'
    · rcases List.mem_cons.mp hq with rfl | hq'
      · rfl
      · exact absurd hs (hhead q hq')
    · rcases List.mem_cons.mp hq with rfl | hq'
      · exact absurd hs.symm (hhead p hp')
      · exact ih hp' hq'

/-! ## Slug resolution on creation -/

/-- C1. Three posts titled "Hello World" created one after the other in an
empty store get the slugs `hello-world`, `hello-world-2` and `hello-world-2-3`:
the third suffix is appended to the slug that already carries the second one,
so the third slug is not `hello-world-3`. -/
theorem createPost_hello_world_third_slug :
    createPost [alice] [] 3 10 0 aliceAuth (titleOnly "Hello World")
      = some (.replied 200 (some (samplePost 10 "hello-world" "Hello World" none))
          [samplePost 10 "hello-world" "Hello World" none])
    ∧ createPost [alice] [samplePost 10 "hello-world" "Hello World" none] 3 11 0 aliceAuth
        (titleOnly "Hello World")
      = some (.replied 200 (some (samplePost 11 "hello-world-2" "Hello World" none))
          [samplePost 10 "hello-world" "Hello World" none,
           samplePost 11 "hello-world-2" "Hello World" none])
    ∧ createPost [alice]
        [samplePost 10 "hello-world" "Hello World" none,
         samplePost 11 "hello-world-2" "Hello World" none] 3 12 0 aliceAuth
        (titleOnly "Hello World")
      = some (.replied 200 (some (samplePost 12 "hello-world-2-3" "Hello World" none))
          [samplePost 10 "hello-world" "Hello World" none,
           samplePost 11 "hello-world-2" "Hello World" none,
           samplePost 12 "hello-world-2-3" "Hello World" none])
    ∧ createSlug
        [samplePost 10 "hello-world" "Hello World" none,
         samplePost 11 "hello-world-2" "Hello World" none] 3 "Hello World"
      = some ⟨"hello-world-2-3", 3⟩
    ∧ findOne
        [samplePost 10 "hello-world" "Hello World" none,
         samplePost 11 "hello-world-2" "Hello World" none] "hello-world-3" = none := by
  decide

/-- C2. When no stored post has the base slug of the title, the slug resolved
by `createPost` is the base slug itself (the title lowercased with every space
replaced by a hyphen), found with a single existence check and without a
suffix. -/
theorem createSlug_base_when_free (store : List Post) (title : String) (fuel : Nat)
    (h : ∀ p ∈ store, p.slug ≠ specBaseSlug title) :
    createSlug store (fuel + 1) title = some ⟨specBaseSlug title, 1⟩ := by
  have hf : findOne store (specBaseSlug title) = none :=
    (findOne_eq_none_iff store _).mpr h
  simp [createSlug, createLoop, hf, slugify_eq_specBaseSlug]

/-- C2 at a store holding `hello-world` and `école`: the title
"École İ ΟΔΟΣ" resolves to `école-i̇-οδος` (accented capital, capital I with dot
above, final sigma), with one existence check. -/
theorem createSlug_base_when_free_witness :
    createSlug [samplePost 10 "hello-world" "Hello World" none,
        samplePost 11 "école" "École" none] 1 "École İ ΟΔΟΣ"
      = some ⟨"école-i̇-οδος", 1⟩ :=
  createSlug_base_when_free
    [samplePost 10 "hello-world" "Hello World" none, samplePost 11 "école" "École" none]
    "École İ ΟΔΟΣ" 0 (by decide)

/-- C3. In a store with pairwise distinct slugs, given enough fuel (more than
the number of stored posts), `createPost` resolves a slug that no stored post
has, and `updatePost` resolves for post `P` a slug that only `P` can have. -/
theorem resolved_slug_not_held (store : List Post)
    (hd : store.Pairwise (fun p q => p.slug ≠ q.slug)) (title : String) (P : Post)
    (extra : Nat) :
    (∃ r, createSlug store (store.length + 1 + extra) title = some r
        ∧ ∀ p ∈ store, p.slug ≠ r.slug)
    ∧ (∃ r, updateSlug store P._id (store.length + 1 + extra) title = some r
        ∧ ∀ q ∈ store, q.slug = r.slug → q._id = P._id) := by
  have hfuel : pending store (slugify title) < store.length + 1 + extra := by
    have := pending_le_length store (slugify title); omega
  constructor
  · obtain ⟨r, hr, _, hfree⟩ := createLoop_terminates store _ (slugify title) 2 0 hfuel
    exact ⟨r, hr, (findOne_eq_none_iff store r.slug).mp hfree⟩
  · obtain ⟨r, hr, _, hfree⟩ := updateLoop_terminates store P._id _ (slugify title) 2 0 hfuel
    refine ⟨r, hr, ?_⟩
    intro q hq hs
    rcases hfree with hnone | ⟨e, he, hid⟩
    · exact absurd hs ((findOne_eq_none_iff store r.slug).mp hnone q hq)
    · obtain ⟨hem, hes⟩ := findOne_some he
      have : q = e := eq_of_slug_eq hd hq hem (hs.trans hes.symm)
      rw [this]; exact hid

/-- C3 at a store of two posts `hello-world` and `hello-world-2`, for the
title "Hello World" and the first post as subject of the update. -/
theorem resolved_slug_not_held_witness :
    (∃ r, createSlug [samplePost 10 "hello-world" "Hello World" none,
            samplePost 11 "hello-world-2" "Hello World" none] 3 "Hello World" = some r
        ∧ ∀ p ∈ [samplePost 10 "hello-world" "Hello World" none,
            samplePost 11 "hello-world-2" "Hello World" none], p.slug ≠ r.slug)
    ∧ (∃ r, updateSlug [samplePost 10 "hello-world" "Hello World" none,
            samplePost 11 "hello-world-2" "Hello World" none] 10 3 "Hello World" = some r
        ∧ ∀ q ∈ [samplePost 10 "hello-world" "Hello World" none,
            samplePost 11 "hello-world-2" "Hello World" none],
            q.slug = r.slug → q._id = 10) :=
  resolved_slug_not_held
    [samplePost 10 "hello-world" "Hello World" none,
     samplePost 11 "hello-world-2" "Hello World" none]
    (by decide) "Hello World" (samplePost 10 "hello-world" "Hello World" none) 0

/-- C4. A `createPost` request whose body carries a `slug` key stores that
slug instead of the resolved one: from a store that satisfies the slug
invariant, a successful request with title "Second Post" and body slug
`hello-world` leaves two posts with the slug `hello-world`; with an empty
body slug it leaves a post with an empty slug. -/
theorem createPost_body_slug_breaks_invariant :
    SlugInvariant [samplePost 10 "hello-world" "Hello World" none]
    ∧ createPost [alice] [samplePost 10 "hello-world" "Hello World" none] 2 11 0 aliceAuth
        { titleOnly "Second Post" with slug := some "hello-world" }
      = some (.replied 200 (some (samplePost 11 "hello-world" "Second Post" none))
          [samplePost 10 "hello-world" "Hello World" none,
           samplePost 11 "hello-world" "Second Post" none])
    ∧ ¬ SlugInvariant
        [samplePost 10 "hello-world" "Hello World" none,
         samplePost 11 "hello-world" "Second Post" none]
    ∧ createPost [alice] [samplePost 10 "hello-world" "Hello World" none] 2 11 0 aliceAuth
        { titleOnly "Second Post" with slug := some "" }
      = some (.replied 200 (some (samplePost 11 "" "Second Post" none))
          [samplePost 10 "hello-world" "Hello World" none,
           samplePost 11 "" "Second Post" none])
    ∧ ¬ SlugInvariant
        [samplePost 10 "hello-world" "Hello World" none,
         samplePost 11 "" "Second Post" none] := by
  decide

/-! ## Slug resolution on update -/

/-- Setting a slug that every post found under `slug` already has leaves the
slugs of the store as they were. -/
theorem findOneAndUpdate_slugs (slug : String) (u : UpdatedFields) :
    ∀ store : List Post, (∀ p ∈ store, p.slug = slug → u.slug.getD p.slug = p.slug) →
      (findOneAndUpdate store slug u).map Post.slug = store.map Post.slug := by
  intro store
  induction store with
  | nil => intro _; rfl
  | cons a t ih =>
    intro h
    by_cases ha : a.slug = slug
    · have := h a (by simp) ha
      simp [findOneAndUpdate, ha, setFields]
      simpa [ha] using this
    · have hb : (a.slug == slug) = false := by simpa using ha
      have ih' := ih (fun p hp => h p (List.mem_cons_of_mem _ hp))
      simp [findOneAndUpdate, hb, ih']

/-- The update loop stops at its first check when the candidate is the slug
under which the subject post itself is found. -/
theorem updateSlug_self {store : List Post} {P : Post} (fuel : Nat) (title : String)
    (hP : findOne store P.slug = some P) (ht : slugify title = P.slug) :
    updateSlug store P._id (fuel + 1) title = some ⟨P.slug, 1⟩ := by
  simp [updateSlug, updateLoop, ht, hP]

/-- C5. Let `P` be the post `updatePost` finds under `req.params.slug`. For a
body whose title is `P`'s current title, or normalizes to `P`'s current slug,
the collision loop returns `P`'s slug at its first check, and the request
(whatever its reply) leaves every slug of the store, `P`'s included, as it was;
the post in a reply has `P`'s slug. -/
theorem updatePost_self_collision_keeps_slug (users : List User) (store : List Post)
    (fuel : Nat) (auth : Auth) (slug : String) (body : UpdateBody) (P : Post) (title : String)
    (hP : findOne store slug = some P) (hb : body.title = some title)
    (ht : title = P.title ∨ slugify title = P.slug) :
    (slugify title = P.slug → updateSlug store P._id (fuel + 1) title = some ⟨P.slug, 1⟩)
    ∧ ∃ o, updatePost users store (fuel + 1) auth slug body = some o
        ∧ ∀ status post store', o = .replied status post store' →
            store'.map Post.slug = store.map Post.slug
            ∧ ∀ p, post = some p → p.slug = P.slug := by
  obtain ⟨_, hslug⟩ := findOne_some hP
  subst hslug
  refine ⟨fun h => updateSlug_self fuel title hP h, ?_⟩
  have hfields : ∃ u, buildUpdatedFields store (fuel + 1) P body = some u
      ∧ (u.slug = none ∨ u.slug = some P.slug) := by
    unfold buildUpdatedFields
    simp only [hb]
    by_cases hc : title ≠ "" ∧ title ≠ P.title
    · rcases ht with h1 | h2
      · exact absurd h1 hc.2
      · rw [if_pos hc, updateSlug_self fuel title hP h2]
        exact ⟨_, rfl, Or.inr rfl⟩
    · rw [if_neg hc]
      exact ⟨_, rfl, Or.inl rfl⟩
  obtain ⟨u, hu, huslug⟩ := hfields
  have hkeep : ∀ p : Post, p.slug = P.slug → u.slug.getD p.slug = p.slug := by
    intro p hp
    rcases huslug with h | h <;> simp [h, hp]
  have hreply : ∀ (status : Nat),
      ∃ o, some (Outcome.replied status none store) = some o
        ∧ ∀ status post store', o = .replied status post store' →
            store'.map Post.slug = store.map Post.slug
            ∧ ∀ p, post = some p → p.slug = P.slug := by
    intro status
    refine ⟨_, rfl, ?_⟩
    intro _ _ _ h
    cases h
    exact ⟨rfl, by intro p hp; cases hp⟩
  unfold updatePost
  cases auth.userId with
  | none => exact hreply 401
  | some clerkUserId =>
    by_cases hempty : clerkUserId = ""
    · simp only [if_pos hempty]
      exact hreply 401
    · simp only [if_neg hempty, hP]
      cases findUserByClerkId users clerkUserId with
      | none => exact hreply 404
      | some user =>
        simp only [hu]
        generalize (if truthy auth.role = true then auth.role.getD "user" else "user") = role
        by_cases hz : role ≠ "admin" ∧ P.user ≠ user._id
        · rw [if_pos hz]
          exact hreply 403
        · rw [if_neg hz]
          refine ⟨_, rfl, ?_⟩
          intro _ _ _ h
          cases h
          refine ⟨findOneAndUpdate_slugs P.slug u store (fun p _ hp => hkeep p hp), ?_⟩
          intro p hp
          cases hp
          simpa [setFields] using hkeep P rfl

/-- C5 at a store of two posts: retitling the post `école-été` from
"école été" to "École Été", which normalizes to its slug, keeps the slug. -/
theorem updatePost_self_collision_keeps_slug_witness :
    (slugify "École Été" = "école-été" →
      updateSlug [samplePost 10 "école-été" "école été" none,
        samplePost 11 "hello-world" "Hello World" none] 10 1 "École Été"
        = some ⟨"école-été", 1⟩)
    ∧ ∃ o, updatePost [alice]
          [samplePost 10 "école-été" "école été" none,
           samplePost 11 "hello-world" "Hello World" none] 1 aliceAuth "école-été"
          { title := some "École Été", category := none, desc := none, content := none,
            img := none } = some o
        ∧ ∀ status post store', o = .replied status post store' →
            store'.map Post.slug
              = [samplePost 10 "école-été" "école été" none,
                 samplePost 11 "hello-world" "Hello World" none].map Post.slug
            ∧ ∀ p, post = some p → p.slug = "école-été" :=
  updatePost_self_collision_keeps_slug [alice]
    [samplePost 10 "école-été" "école été" none,
     samplePost 11 "hello-world" "Hello World" none] 0 aliceAuth "école-été"
    { title := some "École Été", category := none, desc := none, content := none,
      img := none }
    (samplePost 10 "école-été" "école été" none) "École Été"
    (by decide) rfl (Or.inr (by decide))

/-- C6. For every title and every store, the collision loop of `createPost`
and the collision loop of `updatePost` (for any subject post) end when given
fuel for one existence check more than there are stored posts, and the number
of `findOne` calls they made is at most the number of stored posts plus one. -/
theorem collision_loops_terminate (store : List Post) (title : String) (postId : Nat)
    (extra : Nat) :
    (∃ r, createSlug store (store.length + 1 + extra) title = some r
        ∧ r.checks ≤ store.length + 1)
    ∧ (∃ r, updateSlug store postId (store.length + 1 + extra) title = some r
        ∧ r.checks ≤ store.length + 1) := by
  have hp := pending_le_length store (slugify title)
  have hfuel : pending store (slugify title) < store.length + 1 + extra := by omega
  constructor
  · obtain ⟨r, hr, hc, _⟩ := createLoop_terminates store _ (slugify title) 2 0 hfuel
    exact ⟨r, hr, by omega⟩
  · obtain ⟨r, hr, hc, _⟩ := updateLoop_terminates store postId _ (slugify title) 2 0 hfuel
    exact ⟨r, hr, by omega⟩

/-! ## The slug invariant under the two handlers -/

/-- Whatever the fuel, a slug returned by the loop of `createPost` is held by
no stored post and is at least as long as the first candidate. -/
theorem createLoop_sound (store : List Post) :
    ∀ (fuel : Nat) (slug : String) (counter done : Nat) (r : Resolved),
      createLoop store fuel slug counter done = some r →
        findOne store r.slug = none ∧ slug.length ≤ r.slug.length := by
  intro fuel
  induction fuel with
  | zero => intro _ _ _ _ h; simp [createLoop] at h
  | succ n ih =>
    intro slug counter done r h
    cases hf : findOne store slug with
    | none =>
      simp [createLoop, hf] at h
      subst h
      exact ⟨hf, Nat.le_refl _⟩
    | some e =>
      simp [createLoop, hf] at h
      obtain ⟨h1, h2⟩ := ih _ _ _ r h
      have := withSuffix_length slug counter
      exact ⟨h1, by omega⟩

/-- Whatever the fuel, a slug returned by the loop of `updatePost` is held by
no stored post or first held by the subject post, and is at least as long as
the first candidate. -/
theorem updateLoop_sound (store : List Post) (postId : Nat) :
    ∀ (fuel : Nat) (slug : String) (counter done : Nat) (r : Resolved),
      updateLoop store postId fuel slug counter done = some r →
        (findOne store r.slug = none ∨ ∃ e, findOne store r.slug = some e ∧ e._id = postId)
        ∧ slug.length ≤ r.slug.length := by
  intro fuel
  induction fuel with
  | zero => intro _ _ _ _ h; simp [updateLoop] at h
  | succ n ih =>
    intro slug counter done r h
    cases hf : findOne store slug with
    | none =>
      simp [updateLoop, hf] at h
      subst h
      exact ⟨Or.inl hf, Nat.le_refl _⟩
    | some e =>
      by_cases hid : e._id = postId
      · simp [updateLoop, hf, hid] at h
        subst h
        exact ⟨Or.inr ⟨e, hf, hid⟩, Nat.le_refl _⟩
      · simp [updateLoop, hf, hid] at h
        obtain ⟨h1, h2⟩ := ih _ _ _ r h
        have := withSuffix_length slug counter
        exact ⟨h1, by omega⟩

theorem ne_empty_of_length_pos {s : String} (h : 0 < s.length) : s ≠ "" := by
  intro he
  rw [he] at h
  exact absurd h (by decide)

theorem length_pos_of_ne_empty {s : String} (h : s ≠ "") : 0 < s.length := by
  rcases Nat.eq_zero_or_pos s.length with h0 | h0
  · exfalso
    apply h
    have hd : s.data = [] := List.length_eq_zero.mp h0
    cases s
    simp_all
  · exact h0

/-- The invariant speaks of the slugs only. -/
theorem slugInvariant_iff_slugs (store : List Post) :
    SlugInvariant store ↔
      (∀ s ∈ store.map Post.slug, s ≠ "") ∧ (store.map Post.slug).Pairwise (fun a b => a ≠ b) := by
  unfold SlugInvariant
  rw [List.pairwise_map]
  simp

theorem slugInvariant_of_slugs_eq {store store' : List Post}
    (h : store'.map Post.slug = store.map Post.slug) (hinv : SlugInvariant store) :
    SlugInvariant store' := by
  rw [slugInvariant_iff_slugs] at hinv ⊢
  rw [h]; exact hinv

/-- Saving a post whose slug is non-empty and held by no stored post keeps the
invariant. -/
theorem slugInvariant_save {store : List Post} {p : Post} (hinv : SlugInvariant store)
    (hne : p.slug ≠ "") (hfree : ∀ q ∈ store, q.slug ≠ p.slug) :
    SlugInvariant (save store p) := by
  obtain ⟨h1, h2⟩ := hinv
  unfold SlugInvariant save
  constructor
  · intro q hq
    rcases List.mem_append.mp hq with hq | hq
    · exact h1 q hq
    · simp at hq; subst hq; exact hne
  · rw [List.pairwise_append]
    refine ⟨h2, by simp, ?_⟩
    intro a ha b hb
    simp at hb; subst hb
    exact hfree a ha

/-- Giving the first post found under `slug` a new slug that is non-empty and
held by no stored post keeps the invariant. -/
theorem slugInvariant_findOneAndUpdate (slug s : String) (u : UpdatedFields)
    (hu : u.slug = some s) (hs : s ≠ "") :
    ∀ store : List Post, SlugInvariant store → (∀ q ∈ store, q.slug ≠ s) →
      SlugInvariant (findOneAndUpdate store slug u)
      ∧ ∀ q ∈ findOneAndUpdate store slug u, q.slug = s ∨ ∃ q' ∈ store, q'.slug = q.slug := by
  intro store
  induction store with
  | nil => intro h _; exact ⟨h, by intro q hq; simp [findOneAndUpdate] at hq⟩
  | cons a t ih =>
    intro hinv hfree
    obtain ⟨h1, h2⟩ := hinv
    rw [List.pairwise_cons] at h2
    have hset : (setFields u a).slug = s := by simp [setFields, hu]
    by_cases ha : a.slug = slug
    · have hb : (a.slug == slug) = true := by simpa using ha
      simp only [findOneAndUpdate, hb, if_true]
      refine ⟨⟨?_, ?_⟩, ?_⟩
      · intro q hq
        rcases List.mem_cons.mp hq with rfl | hq
        · rw [hset]; exact hs
        · exact h1 q (List.mem_cons_of_mem _ hq)
      · rw [List.pairwise_cons]
        refine ⟨?_, h2.2⟩
        intro q hq
        rw [hset]
        exact fun h => hfree q (List.mem_cons_of_mem _ hq) h.symm
      · intro q hq
        rcases List.mem_cons.mp hq with rfl | hq
        · exact Or.inl hset
        · exact Or.inr ⟨q, List.mem_cons_of_mem _ hq, rfl⟩
    · have hb : (a.slug == slug) = false := by simpa using ha
      simp only [findOneAndUpdate, hb]
      obtain ⟨⟨i1, i2⟩, i3⟩ := ih ⟨fun q hq => h1 q (List.mem_cons_of_mem _ hq), h2.2⟩
        (fun q hq => hfree q (List.mem_cons_of_mem _ hq))
      refine ⟨⟨?_, ?_⟩, ?_⟩
      · intro q hq
        simp only [Bool.false_eq_true, if_false] at hq
        rcases List.mem_cons.mp hq with rfl | hq
        · exact h1 _ (by simp)
        · exact i1 q hq
      · simp only [Bool.false_eq_true, if_false]
        rw [List.pairwise_cons]
        refine ⟨?_, i2⟩
        intro q hq
        rcases i3 q hq with h | ⟨q', hq', h⟩
        · rw [h]; exact hfree a (by simp)
        · rw [← h]; exact h2.1 q' hq'
      · intro q hq
        simp only [Bool.false_eq_true, if_false] at hq
        rcases List.mem_cons.mp hq with rfl | hq
        · exact Or.inr ⟨q, by simp, rfl⟩
        · rcases i3 q hq with h | ⟨q', hq', h⟩
          · exact Or.inl h
          · exact Or.inr ⟨q', List.mem_cons_of_mem _ hq', h⟩

/-- Two stored posts with the same id are the same post when ids are pairwise
distinct. -/
theorem eq_of_id_eq {store : List Post}
    (h : store.Pairwise (fun p q => p._id ≠ q._id)) {p q : Post}
    (hp : p ∈ store) (hq : q ∈ store) (hs : p._id = q._id) : p = q := by
  induction h with
  | nil => cases hp
  | cons hhead _ ih =>
    rcases List.mem_cons.mp hp with rfl | hp'
    · rcases List.mem_cons.mp hq with rfl | hq'
      · rfl
      · exact absurd hs (hhead q hq')
    · rcases List.mem_cons.mp hq with rfl | hq'
      · exact absurd hs.symm (hhead p hp')
      · exact ih hp' hq'

/-- A successful `createPost` request with a non-empty title and a body that
has no `slug` key keeps the slug invariant of the store. -/
theorem createPost_preserves_invariant (users : List User) (store : List Post) (fuel : Nat)
    (newId : Nat) (now : Int) (auth : Auth) (body : CreateBody) (title : String)
    (hinv : SlugInvariant store) (ht : body.title = some title) (hne : title ≠ "")
    (hs : body.slug = none) (status : Nat) (post : Option Post) (store' : List Post)
    (h : createPost users store fuel newId now auth body = some (.replied status post store')) :
    SlugInvariant store' := by
  unfold createPost at h
  cases hauth : auth.userId with
  | none => simp [hauth] at h; rw [← h.2.2]; exact hinv
  | some clerkUserId =>
    by_cases hempty : clerkUserId = ""
    · simp [hauth, hempty] at h; rw [← h.2.2]; exact hinv
    · cases huser : findUserByClerkId users clerkUserId with
      | none => simp [hauth, hempty, huser] at h; rw [← h.2.2]; exact hinv
      | some user =>
        cases hr : createSlug store fuel title with
        | none => simp [hauth, hempty, huser, ht, hr] at h
        | some r =>
          simp [hauth, hempty, huser, ht, hr] at h
          obtain ⟨hfree, hlen⟩ := createLoop_sound store fuel (slugify title) 2 0 r hr
          rw [← h.2.2]
          have hslug : (newPostDoc newId now user._id r.slug title body).slug = r.slug := by
            simp [newPostDoc, hs]
          apply slugInvariant_save hinv
          · rw [hslug]
            apply ne_empty_of_length_pos
            have := length_pos_of_ne_empty (slugify_ne_empty title hne)
            omega
          · rw [hslug]
            exact (findOne_eq_none_iff store r.slug).mp hfree

/-- A successful `updatePost` request keeps the slug invariant of a store
whose document ids are pairwise distinct. -/
theorem updatePost_preserves_invariant (users : List User) (store : List Post) (fuel : Nat)
    (auth : Auth) (slug : String) (body : UpdateBody)
    (hinv : SlugInvariant store) (hids : store.Pairwise (fun p q => p._id ≠ q._id))
    (status : Nat) (post : Option Post) (store' : List Post)
    (h : updatePost users store fuel auth slug body = some (.replied status post store')) :
    SlugInvariant store' := by
  unfold updatePost at h
  cases hauth : auth.userId with
  | none => simp [hauth] at h; rw [← h.2.2]; exact hinv
  | some clerkUserId =>
    by_cases hempty : clerkUserId = ""
    · simp [hauth, hempty] at h; rw [← h.2.2]; exact hinv
    · cases hP : findOne store slug with
      | none => simp [hauth, hempty, hP] at h; rw [← h.2.2]; exact hinv
      | some P =>
        cases huser : findUserByClerkId users clerkUserId with
        | none => simp [hauth, hempty, hP, huser] at h; rw [← h.2.2]; exact hinv
        | some user =>
          simp only [hauth, hempty, if_false, hP, huser] at h
          generalize (if truthy auth.role = true then auth.role.getD "user" else "user")
            = role at h
          by_cases hz : role ≠ "admin" ∧ P.user ≠ user._id
          · rw [if_pos hz] at h
            simp at h; rw [← h.2.2]; exact hinv
          · rw [if_neg hz] at h
            obtain ⟨hPm, hPs⟩ := findOne_some hP
            cases hu : buildUpdatedFields store fuel P body with
            | none => simp [hu] at h
            | some u =>
              simp only [hu, Option.some.injEq, Outcome.replied.injEq] at h
              rw [← h.2.2]
              -- the slug set by the request, if any
              have hcases : u.slug = none ∨ ∃ r title, u.slug = some r.slug ∧ title ≠ ""
                  ∧ updateSlug store P._id fuel title = some r := by
                unfold buildUpdatedFields at hu
                cases hbt : body.title with
                | none => simp [hbt] at hu; rw [← hu]; exact Or.inl rfl
                | some title =>
                  by_cases hc : title ≠ "" ∧ title ≠ P.title
                  · cases hr : updateSlug store P._id fuel title with
                    | none => simp [hbt, hc, hr] at hu
                    | some r =>
                      simp [hbt, hc, hr] at hu
                      rw [← hu]
                      exact Or.inr ⟨r, title, rfl, hc.1, hr⟩
                  · simp only [hbt, if_neg hc] at hu
                    simp at hu
                    rw [← hu]; exact Or.inl rfl
              rcases hcases with hnone | ⟨r, title, hsome, htne, hr⟩
              · apply slugInvariant_of_slugs_eq _ hinv
                apply findOneAndUpdate_slugs
                intro p _ _
                simp [hnone]
              · obtain ⟨hheld, hlen⟩ := updateLoop_sound store P._id fuel (slugify title) 2 0 r hr
                have hrne : r.slug ≠ "" := by
                  apply ne_empty_of_length_pos
                  have := length_pos_of_ne_empty (slugify_ne_empty title htne)
                  omega
                rcases hheld with hfree | ⟨e, he, hid⟩
                · exact (slugInvariant_findOneAndUpdate slug r.slug u hsome hrne store hinv
                    ((findOne_eq_none_iff store r.slug).mp hfree)).1
                · obtain ⟨hem, hes⟩ := findOne_some he
                  have heP : e = P := eq_of_id_eq hids hem hPm hid
                  apply slugInvariant_of_slugs_eq _ hinv
                  apply findOneAndUpdate_slugs
                  intro p _ hp
                  rw [hsome, ← hes, heP, hPs, hp]
                  rfl

/-! ## `parseInt` on decimal numerals -/

theorem digitChar_isDec (k : Nat) (h : k < 10) :
    isDec k.digitChar ∧ digitValue k.digitChar = some k := by
  interval_cases k <;> exact ⟨by decide, by decide⟩

theorem toDigitsCore_spec : ∀ (f n : Nat) (acc : List Char), n < f →
    (∀ c ∈ acc, isDec c) →
    (∀ c ∈ Nat.toDigitsCore 10 f n acc, isDec c)
    ∧ Nat.toDigitsCore 10 f n acc ≠ []
    ∧ List.foldl (fun a c => a * 10 + (digitValue c).getD 0) 0 (Nat.toDigitsCore 10 f n acc)
        = List.foldl (fun a c => a * 10 + (digitValue c).getD 0) n acc := by
  intro f
  induction f with
  | zero => intro n _ h; omega
  | succ f ih =>
    intro n acc hn hacc
    have hd := digitChar_isDec (n % 10) (Nat.mod_lt _ (by decide))
    by_cases h0 : n / 10 = 0
    · have hlt : n % 10 = n := by omega
      simp only [Nat.toDigitsCore, h0, if_true]
      refine ⟨?_, by simp, ?_⟩
      · intro c hc
        rcases List.mem_cons.mp hc with rfl | hc
        · exact hd.1
        · exact hacc c hc
      · rw [List.foldl_cons, hd.2]; simp [hlt]
    · simp only [Nat.toDigitsCore, h0, if_false]
      have hacc' : ∀ c ∈ (n % 10).digitChar :: acc, isDec c := by
        intro c hc
        rcases List.mem_cons.mp hc with rfl | hc
        · exact hd.1
        · exact hacc c hc
      obtain ⟨h1, h2, h3⟩ := ih (n / 10) ((n % 10).digitChar :: acc) (by omega) hacc'
      refine ⟨h1, h2, ?_⟩
      rw [h3, List.foldl_cons, hd.2]
      have : n / 10 * 10 + (some (n % 10)).getD 0 = n := by
        simp only [Option.getD_some]; omega
      rw [this]

theorem isDec_not_ws (c : Char) (h : isDec c) : isWhiteSpace c = false := by
  unfold isDec at h
  simp [isWhiteSpace]
  omega

theorem stripSign_dec (c : Char) (t : List Char) (h : isDec c) : stripSign (c :: t) = (1, c :: t) := by
  unfold stripSign
  split
  · rename_i heq; injection heq with h1 h2; subst h1; exact absurd h (by decide)
  · rename_i heq; injection heq with h1 h2; subst h1; exact absurd h (by decide)
  · rfl

theorem stripRadix_dec (l : List Char) (h : ∀ c ∈ l, isDec c) : stripRadix l = (10, l) := by
  unfold stripRadix
  split
  · exact absurd (h 'x' (by simp)) (by decide)
  · exact absurd (h 'X' (by simp)) (by decide)
  · rfl

theorem isDec_isDigitOf (c : Char) (h : isDec c) : isDigitOf 10 c = true := by
  unfold isDec at h
  simp [isDigitOf, digitValue, h]
  omega

theorem parseInt_toString (n : Nat) : parseInt (some (toString n)) = some (roundNat n) := by
  obtain ⟨h1, h2, h3⟩ := toDigitsCore_spec (n + 1) n [] (by omega) (by simp)
  have hdata : (toString n).data = Nat.toDigitsCore 10 (n + 1) n [] := rfl
  generalize Nat.toDigitsCore 10 (n + 1) n [] = l at h1 h2 h3 hdata
  cases l with
  | nil => exact absurd rfl h2
  | cons c t =>
    have hc : isDec c := h1 c (by simp)
    have hdrop : List.dropWhile isWhiteSpace (c :: t) = c :: t := by
      simp [List.dropWhile, isDec_not_ws c hc]
    have htake : List.takeWhile (isDigitOf 10) (c :: t) = c :: t := by
      rw [List.takeWhile_eq_self_iff]
      intro x hx; exact isDec_isDigitOf x (h1 x hx)
    have hval : digitsValue 10 (c :: t) = n := by
      simpa [digitsValue] using h3
    simp only [parseInt, hdata, hdrop, stripSign_dec c t hc, stripRadix_dec (c :: t) h1, htake,
      hval]
    simp only [reduceCtorEq, if_false, one_mul]
    rfl

/-! ## Numbers in the exact range -/

theorem roundNat_of_le {n : Nat} (h : n ≤ 9007199254740992) : roundNat n = .fin n := by
  simp [roundNat, h]

theorem roundInt_natCast {n : Nat} (h : n ≤ 9007199254740992) :
    roundInt (n : Int) = .fin (n : Int) := by
  show roundNat n = .fin (n : Int)
  exact roundNat_of_le h

theorem one_eq_fin : (1 : JSNumber) = some (.fin 1) := by decide

theorem two_eq_fin : (2 : JSNumber) = some (.fin 2) := by decide

/-- For a page `P >= 1` and a page size `L >= 1` with `P * L` at most 2^53,
the offset `(P - 1) * L` and the product `P * L` are computed exactly. -/
theorem window_exact {P L : Nat} (hP : 1 ≤ P) (hL : 1 ≤ L)
    (h : P * L ≤ 9007199254740992) :
    ((some (.fin (P : Int)) : JSNumber) - 1) * some (.fin (L : Int))
        = some (.fin (((P : Int) - 1) * (L : Int)))
    ∧ (some (.fin (P : Int)) : JSNumber) * some (.fin (L : Int))
        = some (.fin ((P : Int) * (L : Int))) := by
  have h1 : (P - 1) * L ≤ 9007199254740992 :=
    Nat.le_trans (Nat.mul_le_mul_right L (Nat.sub_le P 1)) h
  have h2 : P - 1 ≤ 9007199254740992 :=
    Nat.le_trans (Nat.le_mul_of_pos_right (P - 1) hL) h1
  have c1 : ((P : Int) - 1) = ((P - 1 : Nat) : Int) := by omega
  have c2 : ((P - 1 : Nat) : Int) * (L : Int) = (((P - 1) * L : Nat) : Int) := by push_cast; rfl
  have c3 : (P : Int) * (L : Int) = ((P * L : Nat) : Int) := by push_cast; rfl
  constructor
  · rw [one_eq_fin]
    show JSNumber.mul (JSNumber.sub (some (.fin (P : Int))) (some (.fin 1))) (some (.fin (L : Int)))
      = some (.fin (((P : Int) - 1) * (L : Int)))
    simp only [JSNumber.sub, JSNumber.mul]
    rw [c1, roundInt_natCast h2]
    simp only []
    rw [c2, roundInt_natCast h1]
  · show JSNumber.mul (some (.fin (P : Int))) (some (.fin (L : Int)))
      = some (.fin ((P : Int) * (L : Int)))
    simp only [JSNumber.mul]
    rw [c3, roundInt_natCast h]

/-- The value of `parseInt(v) || d` for a natural number parsed exactly. -/
theorem orDefault_fin_pos {n : Nat} (hn : 1 ≤ n) (d : JSNumber) :
    orDefault (some (.fin (n : Int))) d = some (.fin (n : Int)) := by
  have : (n : Int) ≠ 0 := by omega
  simp [orDefault, this]

set_option exponentiation.threshold 2000 in
/-- Results of `parseInt` on sample inputs: a prefix numeral, a hexadecimal
numeral, no numeral, rounding above 2^53, and a numeral beyond the range of
doubles; and the page window for the last one as `limit`. -/
theorem parseInt_samples :
    parseInt (some "  -42px") = -42
    ∧ parseInt (some "0x1f") = 31
    ∧ parseInt (some "abc") = none
    ∧ parseInt (some "9007199254740993") = 9007199254740992
    ∧ parseInt (some "1000000000000000000000000000000000000000000000000000000000000000000000000000000000000000000000000000000000000000000000000000000000000000000000000000000000000000000000000000000000000000000000000000000000000000000000000000000000000000000000000000000000000000000000000000000000000000000000000000000000000000000000") = some (.inf false)
    ∧ getPosts [] [] 0 [("limit", "1000000000000000000000000000000000000000000000000000000000000000000000000000000000000000000000000000000000000000000000000000000000000000000000000000000000000000000000000000000000000000000000000000000000000000000000000000000000000000000000000000000000000000000000000000000000000000000000000000000000000000000000")]
      = .ok ⟨emptyFilter, .createdAt (-1), some (.inf false), none⟩ false := by
  decide

/-! ## The listing query -/

theorem applySort_user (now : Int) (sortQuery : Option String) (query : Filter) :
    (applySort now sortQuery query).2.user = query.user := by
  unfold applySort
  split_ifs <;> rfl

/-- The handler replies 404 exactly when the `author` parameter is present,
non-empty and not the username of any user. -/
theorem getPosts_notFound_iff (users : List User) (store : List Post) (now : Int)
    (reqQuery : ReqQuery) :
    getPosts users store now reqQuery = .notFound ↔
      (truthy (param reqQuery "author") = true
        ∧ findUserByUsername users ((param reqQuery "author").getD "") = none) := by
  unfold getPosts applyAuthor
  by_cases ha : truthy (param reqQuery "author") = true
  · cases hu : findUserByUsername users ((param reqQuery "author").getD "") <;> simp [ha, hu]
  · simp [ha]

/-- C7. On a collection of 35 posts of which 25 are in category `web-design`,
the request `cat=web-design&page=3&limit=10` is answered with `hasMore = true`:
the flag compares `page * limit = 30` with the size 35 of the whole collection,
not with the 25 posts the filter of the same request selects (for which
`30 < 25` is false). -/
theorem getPosts_hasMore_counts_whole_collection :
    getPosts [] sampleStore35 0 [("cat", "web-design"), ("page", "3"), ("limit", "10")]
      = .ok ⟨{ emptyFilter with category := some "web-design" }, .createdAt (-1), 10, 20⟩ true
    ∧ countMatching (fun _ _ => true) sampleStore35
        { emptyFilter with category := some "web-design" } = 25
    ∧ sampleStore35.length = 35
    ∧ decide ((3 : Int) * 10 < 25) = false := by
  decide

/-- C8 as stated fails: the request `author=` carries an `author` value that
no user has, and it is answered 200 with the unfiltered query, not 404: the
lookup is not made for an empty value. -/
theorem getPosts_empty_author_not_looked_up :
    param [("author", "")] "author" = some ""
    ∧ findUserByUsername [alice] "" = none
    ∧ getPosts [alice] [] 0 [("author", "")]
      = .ok ⟨emptyFilter, .createdAt (-1), 2, 0⟩ false
    ∧ getPosts [alice] [] 0 [("author", "")] ≠ .notFound := by
  decide

/-- C8, amended. For a request whose `author` parameter is present and
non-empty: when no user has that username the reply is 404 and no `find` call
is made; when a user has it, the reply is 200 and the filter of the `find`
call has the predicate `user` = the id of that user. -/
theorem getPosts_author_lookup (users : List User) (store : List Post) (now : Int)
    (reqQuery : ReqQuery) (author : String)
    (ha : param reqQuery "author" = some author) (hne : author ≠ "") :
    (findUserByUsername users author = none →
      getPosts users store now reqQuery = .notFound)
    ∧ (∀ u, findUserByUsername users author = some u →
        ∃ find hasMore, getPosts users store now reqQuery = .ok find hasMore
          ∧ find.query.user = some u._id) := by
  have ht : truthy (some author) = true := by simp [truthy, hne]
  constructor
  · intro hu
    rw [getPosts_notFound_iff, ha]
    exact ⟨ht, hu⟩
  · intro u hu
    unfold getPosts applyAuthor
    simp only [ha, ht, if_true, Option.getD_some, hu]
    refine ⟨_, _, rfl, ?_⟩
    split_ifs <;> simp [applySort_user]

/-- C8, amended, at the directory holding only `alice`: `author=bob` is
answered 404, and `author=alice` is answered 200 with the predicate `user` =
the id of `alice`. -/
theorem getPosts_author_lookup_witness :
    getPosts [alice] [] 0 [("author", "bob")] = .notFound
    ∧ ∃ find hasMore, getPosts [alice] [] 0 [("author", "alice")] = .ok find hasMore
        ∧ find.query.user = some 1 :=
  ⟨(getPosts_author_lookup [alice] [] 0 [("author", "bob")] "bob" rfl (by decide)).1
      (by decide),
    (getPosts_author_lookup [alice] [] 0 [("author", "alice")] "alice" rfl (by decide)).2
      alice (by decide)⟩

/-- C9 as stated fails: the request `sort=trending&author=bob`, with no user
named `bob`, is answered 404; no filter with a `createdAt` bound and no sort
key are produced. -/
theorem getPosts_trending_unknown_author :
    param [("sort", "trending"), ("author", "bob")] "sort" = some "trending"
    ∧ getPosts [alice] [] 0 [("sort", "trending"), ("author", "bob")] = .notFound
    ∧ ¬ ∃ find hasMore,
        getPosts [alice] [] 0 [("sort", "trending"), ("author", "bob")] = .ok find hasMore
          ∧ find.query.createdAt = some (0 - 7 * 24 * 60 * 60 * 1000)
          ∧ find.sort = .visit (-1) := by
  refine ⟨by decide, by decide, ?_⟩
  rintro ⟨find, hasMore, h, _⟩
  have h404 : getPosts [alice] [] 0 [("sort", "trending"), ("author", "bob")] = .notFound := by
    decide
  rw [h404] at h
  cases h

/-- C9, amended. For every request with `sort=trending` evaluated at time
`now` that is not answered 404, the filter of the `find` call has the bound
`createdAt >= now - 7*24*60*60*1000` and the sort key is `visit` descending,
whatever the other parameters are. -/
theorem getPosts_trending_plan (users : List User) (store : List Post) (now : Int)
    (reqQuery : ReqQuery) (hs : param reqQuery "sort" = some "trending")
    (h404 : getPosts users store now reqQuery ≠ .notFound) :
    ∃ find hasMore, getPosts users store now reqQuery = .ok find hasMore
      ∧ find.query.createdAt = some (now - 7 * 24 * 60 * 60 * 1000)
      ∧ find.sort = .visit (-1) := by
  revert h404
  unfold getPosts
  dsimp only
  split
  · intro h; exact absurd rfl h
  · intro _
    refine ⟨_, _, rfl, ?_, ?_⟩
    · simp only [hs, applySort]
      split_ifs <;> simp_all
    · simp [hs, applySort]

/-- C9, amended, at `sort=trending&author=alice&featured=true` and time
1000000000000. -/
theorem getPosts_trending_plan_witness :
    ∃ find hasMore,
      getPosts [alice] [] 1000000000000
          [("sort", "trending"), ("author", "alice"), ("featured", "true")] = .ok find hasMore
        ∧ find.query.createdAt = some (1000000000000 - 7 * 24 * 60 * 60 * 1000)
        ∧ find.sort = .visit (-1) :=
  getPosts_trending_plan [alice] [] 1000000000000
    [("sort", "trending"), ("author", "alice"), ("featured", "true")] (by decide) (by decide)

/-- C10 as stated fails: the handler reads the key `cat`, so the request
`category=web-design&sort=oldest&page=2&limit=5` gets the empty filter, not
`{category: "web-design"}`; an empty value `cat=` adds no predicate either;
and beyond 2^53 the offset is rounded: `page=94906268&limit=94906267` gives
the offset 9007199515875288, where `(p-1)*l` is 9007199515875289. -/
theorem getPosts_category_key_ignored :
    getPosts [] [] 0
        [("category", "web-design"), ("sort", "oldest"), ("page", "2"), ("limit", "5")]
      = .ok ⟨emptyFilter, .createdAt 1, 5, 5⟩ false
    ∧ getPosts [] [] 0 [("cat", ""), ("sort", "oldest"), ("page", "2"), ("limit", "5")]
      = .ok ⟨emptyFilter, .createdAt 1, 5, 5⟩ false
    ∧ emptyFilter.category ≠ some "web-design"
    ∧ emptyFilter.category ≠ some ""
    ∧ getPosts [] [] 0
        [("cat", "web-design"), ("sort", "oldest"), ("page", "94906268"),
         ("limit", "94906267")]
      = .ok ⟨{ emptyFilter with category := some "web-design" }, .createdAt 1, 94906267,
              9007199515875288⟩ false
    ∧ ((94906268 : Int) - 1) * 94906267 = 9007199515875289 := by
  decide

/-- C10, amended. For every non-empty category value `c`, every page `p >= 1`
and limit `l >= 1` with `p * l` at most 2^53 (the range in which the numbers
of the handler are exact), a request with exactly the parameters `cat=c`,
`sort=oldest`, `page=p`, `limit=l` (numbers in decimal) is answered 200 with
the filter `{category: c}` and nothing else, sort ascending by `createdAt`,
offset `(p-1)*l` and limit `l`. -/
theorem getPosts_cat_oldest_plan (users : List User) (store : List Post) (now : Int)
    (reqQuery : ReqQuery) (c : String) (p l : Nat)
    (hc : c ≠ "") (hp : 1 ≤ p) (hl : 1 ≤ l) (hexact : p * l ≤ 9007199254740992)
    (hcat : param reqQuery "cat" = some c)
    (hsort : param reqQuery "sort" = some "oldest")
    (hpage : param reqQuery "page" = some (toString p))
    (hlimit : param reqQuery "limit" = some (toString l))
    (hauthor : param reqQuery "author" = none)
    (hsearch : param reqQuery "search" = none)
    (hfeatured : param reqQuery "featured" = none) :
    getPosts users store now reqQuery
      = .ok ⟨{ emptyFilter with category := some c }, .createdAt 1, some (.fin (l : Int)),
            some (.fin (((p : Int) - 1) * (l : Int)))⟩
          (JSNumber.lt (some (.fin ((p : Int) * (l : Int)))) (some (roundNat store.length))) := by
  have hp2 : p ≤ 9007199254740992 := Nat.le_trans (Nat.le_mul_of_pos_right p hl) hexact
  have hl2 : l ≤ 9007199254740992 := Nat.le_trans (Nat.le_mul_of_pos_left l hp) hexact
  have hP : orDefault (some (roundNat p)) 1 = some (.fin (p : Int)) := by
    rw [roundNat_of_le hp2]; exact orDefault_fin_pos hp 1
  have hL : orDefault (some (roundNat l)) 2 = some (.fin (l : Int)) := by
    rw [roundNat_of_le hl2]; exact orDefault_fin_pos hl 2
  obtain ⟨w1, w2⟩ := window_exact hp hl hexact
  unfold getPosts applyAuthor
  simp only [hcat, hsort, hpage, hlimit, hauthor, hsearch, hfeatured, parseInt_toString, hP, hL,
    w1, w2]
  simp [truthy, hc, applySort]

/-- C10, amended, at `cat=web-design&sort=oldest&page=2&limit=5`: filter
`{category: "web-design"}`, offset 5, limit 5. -/
theorem getPosts_cat_oldest_plan_witness :
    getPosts [] [] 0 [("cat", "web-design"), ("sort", "oldest"), ("page", "2"), ("limit", "5")]
      = .ok ⟨{ emptyFilter with category := some "web-design" }, .createdAt 1, 5, 5⟩ false :=
  getPosts_cat_oldest_plan [] [] 0
    [("cat", "web-design"), ("sort", "oldest"), ("page", "2"), ("limit", "5")]
    "web-design" 2 5 (by decide) (by decide) (by decide) (by decide)
    rfl rfl rfl rfl rfl rfl rfl

/-! ## Pagination -/

/-- A reply other than 404 is a 200 reply. -/
theorem getPosts_ok_of_ne_notFound {users : List User} {store : List Post} {now : Int}
    {reqQuery : ReqQuery} (h : getPosts users store now reqQuery ≠ .notFound) :
    ∃ find hasMore, getPosts users store now reqQuery = .ok find hasMore := by
  cases hr : getPosts users store now reqQuery with
  | notFound => exact absurd hr h
  | ok find hasMore => exact ⟨find, hasMore, rfl⟩

/-- The page window of a 200 reply: the limit is `limitUsed`, the offset is
`(pageUsed - 1) * limitUsed`, and `hasMore` compares `pageUsed * limitUsed`
with the size of the collection. -/
theorem getPosts_window {users : List User} {store : List Post} {now : Int}
    {reqQuery : ReqQuery} {find : FindCall} {hasMore : Bool}
    (h : getPosts users store now reqQuery = .ok find hasMore) :
    find.limit = limitUsed reqQuery
    ∧ find.skip = (pageUsed reqQuery - 1) * limitUsed reqQuery
    ∧ hasMore = JSNumber.lt (pageUsed reqQuery * limitUsed reqQuery)
        (some (roundNat store.length)) := by
  unfold getPosts at h
  dsimp only at h
  split at h
  · cases h
  · injection h with h1 h2
    subst h1 h2
    exact ⟨rfl, rfl, rfl⟩

/-- The value of `parseInt(v) || d` when `v` is `NaN` or a natural number up
to `bound`, for a default `d` between 1 and `bound`: a natural number between
1 and `bound`. -/
theorem orDefault_small {v : JSNumber} (d bound : Nat) (hd : 1 ≤ d) (hdb : d ≤ bound)
    (hv : v = none ∨ ∃ n : Nat, v = some (.fin (n : Int)) ∧ n ≤ bound) :
    ∃ m : Nat, orDefault v (some (.fin (d : Int))) = some (.fin (m : Int))
      ∧ 1 ≤ m ∧ m ≤ bound := by
  rcases hv with rfl | ⟨n, rfl, hn⟩
  · exact ⟨d, rfl, hd, hdb⟩
  · by_cases h0 : n = 0
    · subst h0
      exact ⟨d, by simp [orDefault], hd, hdb⟩
    · exact ⟨n, orDefault_fin_pos (by omega) _, by omega, hn⟩

/-- When the raw `page` and `limit` are absent, non-numeric or parse to
natural numbers up to 94906265 (so that their product stays below 2^53), the
limit handed to the store is a positive integer and the offset is a
non-negative integer, equal to `(page - 1) * limit`. -/
theorem getPosts_window_of_small {users : List User} {store : List Post} {now : Int}
    {reqQuery : ReqQuery} {find : FindCall} {hasMore : Bool}
    (h : getPosts users store now reqQuery = .ok find hasMore)
    (hp : parseInt (param reqQuery "page") = none
      ∨ ∃ n : Nat, parseInt (param reqQuery "page") = some (.fin (n : Int)) ∧ n ≤ 94906265)
    (hl : parseInt (param reqQuery "limit") = none
      ∨ ∃ n : Nat, parseInt (param reqQuery "limit") = some (.fin (n : Int)) ∧ n ≤ 94906265) :
    ∃ P L : Nat, 1 ≤ P ∧ 1 ≤ L
      ∧ pageUsed reqQuery = some (.fin (P : Int))
      ∧ find.limit = some (.fin (L : Int))
      ∧ find.skip = some (.fin (((P : Int) - 1) * (L : Int))) := by
  obtain ⟨h1, h2, _⟩ := getPosts_window h
  obtain ⟨P, hP, hP1, hPb⟩ := orDefault_small 1 94906265 (by decide) (by decide) hp
  obtain ⟨L, hL, hL1, hLb⟩ := orDefault_small 2 94906265 (by decide) (by decide) hl
  have hpage : pageUsed reqQuery = some (.fin (P : Int)) := by
    unfold pageUsed; rw [one_eq_fin]; exact hP
  have hlimit : limitUsed reqQuery = some (.fin (L : Int)) := by
    unfold limitUsed; rw [two_eq_fin]; exact hL
  have hprod : P * L ≤ 9007199254740992 :=
    Nat.le_trans (Nat.mul_le_mul hPb hLb) (by decide)
  refine ⟨P, L, hP1, hL1, hpage, by rw [h1, hlimit], ?_⟩
  rw [h2, hpage, hlimit]
  exact (window_exact hP1 hL1 hprod).1

/-- C11. Negative raw inputs are not defaulted: `limit=-5` hands the store the
page size -5, and `page=-1&limit=5` hands it the offset -10; a raw `0` and a
non-numeric input are replaced by the defaults (page 1, page size 2). -/
theorem getPosts_negative_pagination :
    getPosts [] [] 0 [("limit", "-5")] = .ok ⟨emptyFilter, .createdAt (-1), -5, 0⟩ true
    ∧ getPosts [] [] 0 [("page", "-1"), ("limit", "5")]
      = .ok ⟨emptyFilter, .createdAt (-1), 5, -10⟩ true
    ∧ getPosts [] [] 0 [("page", "0"), ("limit", "abc")]
      = .ok ⟨emptyFilter, .createdAt (-1), 2, 0⟩ false
    ∧ ¬ ((0 : Int) < -5)
    ∧ ¬ ((0 : Int) ≤ -10) := by
  decide

theorem isDec_of_isDigitOf_ten (c : Char) (h : isDigitOf 10 c = true) : isDec c := by
  unfold isDigitOf digitValue at h
  unfold isDec
  by_cases h1 : 48 ≤ c.toNat ∧ c.toNat ≤ 57
  · exact h1
  · by_cases h2 : 97 ≤ c.toNat ∧ c.toNat ≤ 102
    · simp [h1, h2] at h; omega
    · by_cases h3 : 65 ≤ c.toNat ∧ c.toNat ≤ 70
      · simp [h1, h2, h3] at h; omega
      · simp [h1, h2, h3] at h

/-- A string that, after leading white space and an optional sign, is empty or
starts with a character that is not a decimal digit has no numeral for
`parseInt`: the result is `NaN`. -/
theorem parseInt_none_of_no_digit (s : String)
    (h : ∀ c rest, (stripSign (s.data.dropWhile isWhiteSpace)).2 = c :: rest → ¬ isDec c) :
    parseInt (some s) = none := by
  unfold parseInt
  dsimp only
  generalize (stripSign (s.data.dropWhile isWhiteSpace)).2 = l at h
  have hradix : stripRadix l = (10, l) := by
    unfold stripRadix
    split
    · exact absurd (show isDec '0' by decide) (h _ _ rfl)
    · exact absurd (show isDec '0' by decide) (h _ _ rfl)
    · rfl
  rw [hradix]
  cases l with
  | nil => simp
  | cons c rest =>
    have hc : isDigitOf 10 c = false := by
      cases hd : isDigitOf 10 c with
      | false => rfl
      | true => exact absurd (isDec_of_isDigitOf_ten c hd) (h c rest rfl)
    simp [List.takeWhile, hc]

/-- C12. Pagination input never rejects a request. When `page` is absent or
non-numeric (`parseInt` yields `NaN` for it) the page used is 1; when `limit`
is absent or non-numeric the page size used is 2; the only rejection is the
404 of an unresolved `author`, and every other request is answered 200 with
a `find` call whose limit and offset come from the page and page size used. -/
theorem getPosts_pagination_defaults (users : List User) (store : List Post) (now : Int)
    (reqQuery : ReqQuery) :
    (parseInt (param reqQuery "page") = none → pageUsed reqQuery = 1)
    ∧ (parseInt (param reqQuery "limit") = none → limitUsed reqQuery = 2)
    ∧ ((truthy (param reqQuery "author") = true
          ∧ findUserByUsername users ((param reqQuery "author").getD "") = none
          ∧ getPosts users store now reqQuery = .notFound)
        ∨ ∃ find hasMore, getPosts users store now reqQuery = .ok find hasMore
            ∧ find.limit = limitUsed reqQuery
            ∧ find.skip = (pageUsed reqQuery - 1) * limitUsed reqQuery) := by
  refine ⟨?_, ?_, ?_⟩
  · intro h; simp [pageUsed, orDefault, h]
  · intro h; simp [limitUsed, orDefault, h]
  · by_cases h404 : getPosts users store now reqQuery = .notFound
    · have := (getPosts_notFound_iff users store now reqQuery).mp h404
      exact Or.inl ⟨this.1, this.2, h404⟩
    · obtain ⟨find, hasMore, hok⟩ := getPosts_ok_of_ne_notFound h404
      obtain ⟨h1, h2, _⟩ := getPosts_window hok
      exact Or.inr ⟨find, hasMore, hok, h1, h2⟩

/-- C12 at `page=abc&search=lean` (no `limit`): page 1 and page size 2 are
used, and the reply is 200 with limit 2 and offset 0. -/
theorem getPosts_pagination_defaults_witness :
    parseInt (param [("page", "abc"), ("search", "lean")] "page") = none
    ∧ parseInt (param [("page", "abc"), ("search", "lean")] "limit") = none
    ∧ pageUsed [("page", "abc"), ("search", "lean")] = 1
    ∧ limitUsed [("page", "abc"), ("search", "lean")] = 2
    ∧ getPosts [alice] [] 0 [("page", "abc"), ("search", "lean")]
      = .ok ⟨{ emptyFilter with title := some ⟨"lean", "i"⟩ }, .createdAt (-1), 2, 0⟩ false :=
  ⟨by decide, by decide,
    (getPosts_pagination_defaults [alice] [] 0 [("page", "abc"), ("search", "lean")]).1
      (by decide),
    (getPosts_pagination_defaults [alice] [] 0 [("page", "abc"), ("search", "lean")]).2.1
      (by decide),
    by decide⟩

/-! ## Sort key and filter of the listing query -/

/-- Shape of a 200 reply: the author step succeeded on the filter of the `cat`
and `search` steps, and the `find` call carries the result of the `switch`
followed by the `featured` step. -/
theorem getPosts_ok_form {users : List User} {store : List Post} {now : Int}
    {reqQuery : ReqQuery} {find : FindCall} {hasMore : Bool}
    (h : getPosts users store now reqQuery = .ok find hasMore) :
    ∃ q, applyAuthor users (param reqQuery "author") (baseFilter reqQuery) = some q
      ∧ find.query
          = (if truthy (param reqQuery "featured") then
              { (applySort now (param reqQuery "sort") q).2 with isFeatured := some true }
             else (applySort now (param reqQuery "sort") q).2)
      ∧ find.sort = (applySort now (param reqQuery "sort") q).1 := by
  unfold getPosts at h
  dsimp only at h
  split at h
  · cases h
  · rename_i q hq
    injection h with h1 h2
    subst h1
    exact ⟨q, hq, rfl, rfl⟩

theorem baseFilter_fields (reqQuery : ReqQuery) :
    (baseFilter reqQuery).category = ifTruthy (param reqQuery "cat")
    ∧ (baseFilter reqQuery).title
        = (if truthy (param reqQuery "search") then
            some ⟨(param reqQuery "search").getD "", "i"⟩ else none)
    ∧ (baseFilter reqQuery).user = none
    ∧ (baseFilter reqQuery).createdAt = none
    ∧ (baseFilter reqQuery).isFeatured = none := by
  unfold baseFilter ifTruthy emptyFilter
  dsimp only
  split_ifs <;> exact ⟨rfl, rfl, rfl, rfl, rfl⟩

theorem applyAuthor_fields {users : List User} {author : Option String} {b q : Filter}
    (h : applyAuthor users author b = some q) :
    q.category = b.category ∧ q.title = b.title ∧ q.createdAt = b.createdAt
    ∧ q.isFeatured = b.isFeatured
    ∧ q.user = (if truthy author then
        (findUserByUsername users (author.getD "")).map User._id else b.user) := by
  unfold applyAuthor at h
  by_cases ht : truthy author = true
  · rw [if_pos ht] at h
    rw [if_pos ht]
    cases hu : findUserByUsername users (author.getD "") with
    | none => rw [hu] at h; cases h
    | some user =>
      rw [hu] at h
      injection h with h
      subst h
      exact ⟨rfl, rfl, rfl, rfl, rfl⟩
  · rw [if_neg ht] at h
    rw [if_neg ht]
    injection h with h
    subst h
    exact ⟨rfl, rfl, rfl, rfl, rfl⟩

theorem applySort_fields (now : Int) (sortQuery : Option String) (b : Filter) :
    (applySort now sortQuery b).2.category = b.category
    ∧ (applySort now sortQuery b).2.title = b.title
    ∧ (applySort now sortQuery b).2.user = b.user
    ∧ (applySort now sortQuery b).2.isFeatured = b.isFeatured
    ∧ (applySort now sortQuery b).2.createdAt
        = (if sortQuery = some "trending" then some (now - 7 * 24 * 60 * 60 * 1000)
           else b.createdAt) := by
  unfold applySort
  split_ifs <;> first | exact ⟨rfl, rfl, rfl, rfl, rfl⟩ | simp_all

/-- The filter of a 200 reply, field by field. -/
theorem getPosts_filter_fields {users : List User} {store : List Post} {now : Int}
    {reqQuery : ReqQuery} {find : FindCall} {hasMore : Bool}
    (h : getPosts users store now reqQuery = .ok find hasMore) :
    find.query.category = ifTruthy (param reqQuery "cat")
    ∧ find.query.title
        = (if truthy (param reqQuery "search") then
            some ⟨(param reqQuery "search").getD "", "i"⟩ else none)
    ∧ find.query.user
        = (if truthy (param reqQuery "author") then
            (findUserByUsername users ((param reqQuery "author").getD "")).map User._id
           else none)
    ∧ find.query.createdAt
        = (if param reqQuery "sort" = some "trending" then
            some (now - 7 * 24 * 60 * 60 * 1000) else none)
    ∧ find.query.isFeatured
        = (if truthy (param reqQuery "featured") then some true else none) := by
  obtain ⟨q, hq, hquery, _⟩ := getPosts_ok_form h
  obtain ⟨a1, a2, a3, a4, a5⟩ := applyAuthor_fields hq
  obtain ⟨b1, b2, b3, b4, b5⟩ := baseFilter_fields reqQuery
  obtain ⟨s1, s2, s3, s4, s5⟩ := applySort_fields now (param reqQuery "sort") q
  rw [hquery]
  by_cases hf : truthy (param reqQuery "featured") = true
  · simp only [if_pos hf]
    refine ⟨?_, ?_, ?_, ?_, trivial⟩
    · rw [s1, a1, b1]
    · rw [s2, a2, b2]
    · rw [s3, a5, b3]
    · rw [s5, a3, b4]
  · simp only [if_neg hf]
    refine ⟨?_, ?_, ?_, ?_, ?_⟩
    · rw [s1, a1, b1]
    · rw [s2, a2, b2]
    · rw [s3, a5, b3]
    · rw [s5, a3, b4]
    · rw [s4, a4, b5]

/-- The `switch` changes the filter only for `trending`. -/
theorem applySort_filter_of_ne_trending (now : Int) (sortQuery : Option String)
    (query : Filter) (h : sortQuery ≠ some "trending") :
    (applySort now sortQuery query).2 = query := by
  unfold applySort
  split_ifs <;> rfl

/-- C13 as stated fails: the request `sort=oldest&author=bob`, with no user
named `bob`, is answered 404 and has no sort key. -/
theorem getPosts_sort_unknown_author :
    param [("sort", "oldest"), ("author", "bob")] "sort" = some "oldest"
    ∧ getPosts [alice] [] 0 [("sort", "oldest"), ("author", "bob")] = .notFound
    ∧ ¬ ∃ find hasMore,
        getPosts [alice] [] 0 [("sort", "oldest"), ("author", "bob")] = .ok find hasMore
          ∧ find.sort = .createdAt 1 := by
  refine ⟨by decide, by decide, ?_⟩
  rintro ⟨find, hasMore, h, _⟩
  have h404 : getPosts [alice] [] 0 [("sort", "oldest"), ("author", "bob")] = .notFound := by
    decide
  rw [h404] at h
  cases h

/-- C13, amended. For every request that is not answered 404, the sort key is
`createdAt` descending when `sort` is absent or `newest`, `createdAt`
ascending when it is `oldest`, and `visit` descending when it is `popular`;
in these cases the `switch` hands the filter on unchanged, and the only
value of `sort` for which it changes the filter is `trending`. -/
theorem getPosts_sort_key (users : List User) (store : List Post) (now : Int)
    (reqQuery : ReqQuery) (h404 : getPosts users store now reqQuery ≠ .notFound) :
    ∃ find hasMore, getPosts users store now reqQuery = .ok find hasMore
      ∧ ((param reqQuery "sort" = none ∨ param reqQuery "sort" = some "newest") →
          find.sort = .createdAt (-1))
      ∧ (param reqQuery "sort" = some "oldest" → find.sort = .createdAt 1)
      ∧ (param reqQuery "sort" = some "popular" → find.sort = .visit (-1))
      ∧ (∀ query, (applySort now (param reqQuery "sort") query).2 ≠ query →
          param reqQuery "sort" = some "trending")
      ∧ (param reqQuery "sort" ≠ some "trending" → find.query.createdAt = none) := by
  obtain ⟨find, hasMore, hok⟩ := getPosts_ok_of_ne_notFound h404
  obtain ⟨q, _, _, hsort⟩ := getPosts_ok_form hok
  obtain ⟨_, _, _, hcreated, _⟩ := getPosts_filter_fields hok
  refine ⟨find, hasMore, hok, ?_, ?_, ?_, ?_, ?_⟩
  · rintro (h | h) <;> rw [hsort, h] <;> simp [applySort]
  · intro h; rw [hsort, h]; simp [applySort]
  · intro h; rw [hsort, h]; simp [applySort]
  · intro query hq
    by_contra hne
    exact hq (applySort_filter_of_ne_trending now _ query hne)
  · intro hne
    rw [hcreated, if_neg hne]

/-- C13, amended, at `sort=popular&cat=news`: the reply is 200 with sort key
`visit` descending. -/
theorem getPosts_sort_key_witness :
    ∃ find hasMore, getPosts [alice] [] 0 [("sort", "popular"), ("cat", "news")]
        = .ok find hasMore
      ∧ ((param [("sort", "popular"), ("cat", "news")] "sort" = none
            ∨ param [("sort", "popular"), ("cat", "news")] "sort" = some "newest") →
          find.sort = .createdAt (-1))
      ∧ (param [("sort", "popular"), ("cat", "news")] "sort" = some "oldest" →
          find.sort = .createdAt 1)
      ∧ (param [("sort", "popular"), ("cat", "news")] "sort" = some "popular" →
          find.sort = .visit (-1))
      ∧ (∀ query, (applySort 0 (param [("sort", "popular"), ("cat", "news")] "sort") query).2
            ≠ query →
          param [("sort", "popular"), ("cat", "news")] "sort" = some "trending")
      ∧ (param [("sort", "popular"), ("cat", "news")] "sort" ≠ some "trending" →
          find.query.createdAt = none) :=
  getPosts_sort_key [alice] [] 0 [("sort", "popular"), ("cat", "news")] (by decide)

/-- C14 as stated fails: with `author=` (present, empty) the reply is 200 and
the filter has no `user` predicate; with `cat=` (present, empty) it has no
`category` predicate. -/
theorem getPosts_empty_value_not_constrained :
    param [("author", "")] "author" = some ""
    ∧ getPosts [alice] [] 0 [("author", "")]
      = .ok ⟨emptyFilter, .createdAt (-1), 2, 0⟩ false
    ∧ emptyFilter.user = none
    ∧ param [("cat", "")] "cat" = some ""
    ∧ getPosts [alice] [] 0 [("cat", "")]
      = .ok ⟨emptyFilter, .createdAt (-1), 2, 0⟩ false
    ∧ emptyFilter.category = none := by
  decide

/-- C14, amended. For every request answered 200 the filter is exactly:
`title` = the pattern of the raw search text with option `i` when `search` is
present and non-empty, else no `title` predicate; `isFeatured` = true when
`featured` is present and non-empty, else none; `user` = the id of the author
found when `author` is present and non-empty, else none; `createdAt` bounded
below by `now - 7 days` when `sort` is `trending`, else none; `category` = the
value of `cat` when it is present and non-empty, else none. With none of the
parameters present (and `sort` not `trending`) the filter is empty. -/
theorem getPosts_filter_exact (users : List User) (store : List Post) (now : Int)
    (reqQuery : ReqQuery) (find : FindCall) (hasMore : Bool)
    (h : getPosts users store now reqQuery = .ok find hasMore) :
    find.query.title
        = (if truthy (param reqQuery "search") then
            some ⟨(param reqQuery "search").getD "", "i"⟩ else none)
    ∧ find.query.isFeatured
        = (if truthy (param reqQuery "featured") then some true else none)
    ∧ (find.query.user ≠ none ↔ truthy (param reqQuery "author") = true)
    ∧ (∀ u, findUserByUsername users ((param reqQuery "author").getD "") = some u →
        truthy (param reqQuery "author") = true → find.query.user = some u._id)
    ∧ find.query.createdAt
        = (if param reqQuery "sort" = some "trending" then
            some (now - 7 * 24 * 60 * 60 * 1000) else none)
    ∧ find.query.category
        = (if truthy (param reqQuery "cat") then param reqQuery "cat" else none)
    ∧ (param reqQuery "search" = none → param reqQuery "featured" = none →
        param reqQuery "author" = none → param reqQuery "sort" ≠ some "trending" →
        param reqQuery "cat" = none → find.query = emptyFilter) := by
  obtain ⟨hcat, htitle, huser, hcreated, hfeat⟩ := getPosts_filter_fields h
  have h404 : ¬ (truthy (param reqQuery "author") = true
      ∧ findUserByUsername users ((param reqQuery "author").getD "") = none) := by
    intro hc
    have := (getPosts_notFound_iff users store now reqQuery).mpr hc
    rw [this] at h
    cases h
  refine ⟨htitle, hfeat, ?_, ?_, hcreated, hcat, ?_⟩
  · rw [huser]
    by_cases ht : truthy (param reqQuery "author") = true
    · simp only [ht, if_true, iff_true]
      cases hu : findUserByUsername users ((param reqQuery "author").getD "") with
      | none => exact absurd ⟨ht, hu⟩ h404
      | some u => simp
    · simp [ht]
  · intro u hu ht
    rw [huser, if_pos ht, hu]
    rfl
  · intro h1 h2 h3 h4 h5
    have e1 : find.query.title = none := by rw [htitle, h1]; rfl
    have e2 : find.query.isFeatured = none := by rw [hfeat, h2]; rfl
    have e3 : find.query.user = none := by rw [huser, h3]; rfl
    have e4 : find.query.createdAt = none := by rw [hcreated, if_neg h4]
    have e5 : find.query.category = none := by rw [hcat, h5]; rfl
    cases hq : find.query with
    | mk c t u cr f =>
      rw [hq] at e1 e2 e3 e4 e5
      simp only at e1 e2 e3 e4 e5
      subst e1 e2 e3 e4 e5
      rfl

/-- C14, amended, at `search=lean&featured=1&author=alice&sort=trending` with
`cat=` empty and time 1000000000000. -/
theorem getPosts_filter_exact_witness :
    getPosts [alice] [] 1000000000000
        [("search", "lean"), ("featured", "1"), ("author", "alice"), ("sort", "trending"),
         ("cat", "")]
      = .ok ⟨⟨none, some ⟨"lean", "i"⟩, some 1, some 999395200000, some true⟩,
              .visit (-1), 2, 0⟩ false
    ∧ (⟨none, some ⟨"lean", "i"⟩, some 1, some 999395200000, some true⟩ : Filter).title
        = (if truthy (param [("search", "lean"), ("featured", "1"), ("author", "alice"),
              ("sort", "trending"), ("cat", "")] "search") then
            some ⟨(param [("search", "lean"), ("featured", "1"), ("author", "alice"),
              ("sort", "trending"), ("cat", "")] "search").getD "", "i"⟩ else none) :=
  ⟨by decide,
    (getPosts_filter_exact [alice] [] 1000000000000
      [("search", "lean"), ("featured", "1"), ("author", "alice"), ("sort", "trending"),
       ("cat", "")]
      ⟨⟨none, some ⟨"lean", "i"⟩, some 1, some 999395200000, some true⟩, .visit (-1), 2, 0⟩
      false (by decide)).1⟩

end Portfolio
